import Mathlib

/-!
Shallow embedding of the `briefing` program (morning outlook / evening
wrap-up aggregator) and proofs about its aggregation and classification
logic.

Modelling conventions:
- Go `float64` values are embedded as `ℚ`; float literals such as `0.95`
  are taken at their decimal value.
- Go `int(x)` conversion from a float truncates toward zero; it is
  embedded as `goTruncToInt`.
- Optional fields (Go nil-able pointers) are `Option`.
- Go strings are Lean `String`; Go byte-wise string comparison on the
  ASCII date strings used here coincides with Lean's lexicographic
  `String` order.
-/

/-- Go `int(x)` conversion of a float: truncation toward zero. -/
def goTruncToInt (q : ℚ) : Int :=
  if 0 ≤ q then ⌊q⌋ else ⌈q⌉

/-- Rounding to the nearest integer with ties going up, `⌊q + 1/2⌋`.
This follows the spec's words ("round to the nearest whole kcal using
round-half-up"); it is the spec-side definition used to compare against
the source's `int(x + 0.5)`. -/
def specRoundHalfUp (q : ℚ) : Int :=
  ⌊q + 1/2⌋

/-- Per-user constant from the source (`UserBMRKcal`). -/
def UserBMRKcal : Int := 1636

/-- Per-user constant from the source (`UserProteinTargetG`). -/
def UserProteinTargetG : Int := 152

/-- `CalculateBMR` from the source: Mifflin-St Jeor, `int(bmr + 0.5)`. -/
def CalculateBMR (weightKg heightCm : ℚ) (age : Int) (isMale : Bool) : Int :=
  let bmr : ℚ := 10 * weightKg + 625/100 * heightCm - 5 * age
  let bmr := if isMale then bmr + 5 else bmr - 161
  goTruncToInt (bmr + 1/2)

/-- `CalculateEnergyBalance` from the source: total burned is
`bmr + activeEnergy`; the balance is `int(consumed - totalBurned + 0.5)`
(Go truncating conversion); status thresholds are −50 / +50. -/
def CalculateEnergyBalance (bmr : Int) (activeEnergy consumedEnergy : ℚ) : Int × String :=
  let totalBurned : ℚ := (bmr : ℚ) + activeEnergy
  let balance : Int := goTruncToInt (consumedEnergy - totalBurned + 1/2)
  let status : String :=
    if balance < -50 then "deficit"
    else if balance > 50 then "surplus"
    else "maintenance"
  (balance, status)

/-- `CalculateProteinStatus` from the source: remaining grams floored at
zero, on-track iff `consumed >= target * 0.95`. -/
def CalculateProteinStatus (consumed target : ℚ) : ℚ × Bool :=
  let remaining := target - consumed
  let remaining := if remaining < 0 then 0 else remaining
  let onTrack : Bool := consumed ≥ target * (95/100)
  (remaining, onTrack)

/-- `ParseMode` from the source: both flags is a configuration error,
evening alone selects evening, otherwise morning (the default). -/
def ParseMode (morning evening : Bool) : Except String String :=
  if morning && evening then
    .error "cannot specify both --morning and --evening"
  else if evening then
    .ok "evening"
  else
    .ok "morning"

/-! ## Morning report data model (from the source structs) -/

structure SleepData where
  TotalHours : Option ℚ
  DeepHours : Option ℚ
  REMHours : Option ℚ
  CoreHours : Option ℚ
  DataDate : String
  IsCurrentDay : Bool
  DataAvailable : Bool
deriving Repr, DecidableEq

structure VitalsData where
  RestingHR : Option ℚ
  HRV : Option ℚ
  SpO2 : Option ℚ
  RespiratoryRate : Option ℚ
deriving Repr, DecidableEq

structure CalendarEvent where
  Time : String
  Summary : String
  EventSource : String
deriving Repr, DecidableEq

structure CalendarData where
  MorningEvents : List CalendarEvent
  AfternoonEvents : List CalendarEvent
  MorningCount : Nat
  FirstEventTime : String
deriving Repr, DecidableEq

structure MedTask where
  Name : String
  DueTime : String
  DueDate : String
deriving Repr, DecidableEq

structure MedsData where
  DueToday : List MedTask
  Overdue : List MedTask
  Completed : List MedTask
deriving Repr, DecidableEq

structure WorkoutSummary where
  ID : String
  Title : String
  Date : String
  Duration : String
  Exercises : List String
deriving Repr, DecidableEq

structure TrainingData where
  LastWorkout : Option WorkoutSummary
  DaysSinceLast : Int
  RecentWorkouts : List WorkoutSummary
  WeeklyCount : Nat
deriving Repr, DecidableEq

structure Classification where
  SleepQuality : String
  MorningLoad : String
  RecoveryStatus : String
  Recommendation : String
deriving Repr, DecidableEq

structure MorningBriefing where
  GeneratedAt : String
  TargetDate : String
  Sleep : SleepData
  Vitals : VitalsData
  Calendar : CalendarData
  Meds : MedsData
  Training : TrainingData
  Classif : Classification
  Errors : List String
deriving Repr, DecidableEq

/-! ## Classification engine (`classify` in the source) -/

/-- Rounding half-to-even, the rule used by Go `fmt` for `%.0f`. -/
def roundHalfEven (q : ℚ) : Int :=
  let f := ⌊q⌋
  let r := q - f
  if r < 1/2 then f
  else if 1/2 < r then f + 1
  else if f % 2 = 0 then f else f + 1

/-- Decimal rendering of `%.0f` for the HRV value in the recovery
message. -/
def fmtF0 (q : ℚ) : String :=
  let n := roundHalfEven q
  if n < 0 then "-" ++ toString (-n).toNat else toString n.toNat

/-- Message of the combined poor-sleep / poor-recovery branch. -/
def msgCombinedPoor : String :=
  "Poor sleep + poor recovery (low HRV). Take it very easy today, prioritize rest and recovery."

/-- Message of the low-HRV branch, naming the HRV value (`%.0f`). -/
def msgLowHRV (hrv : ℚ) : String :=
  "HRV is low (" ++ fmtF0 hrv ++ "ms) indicating poor recovery. Consider lighter activity today."

def msgPoorPacked : String :=
  "Rough night + packed morning. Prioritize must-dos, defer what you can. Power through essentials only."

def msgPoorLight : String :=
  "Rough night but light morning. Ease in, handle the few things, then reassess energy."

def msgPoorClear : String :=
  "Rough night, clear morning. Take it slow, no rush. Recovery day vibes."

def msgOkPacked : String :=
  "Decent sleep, busy morning. You\x27ve got this, stay focused."

def msgGoodSleep : String :=
  "Well rested. Attack the day."

def msgDefault : String :=
  "Sleep data unavailable. Check energy levels and adjust accordingly."

/-- The trailing `switch` of `classify`: the sleep/load recommendation
chain, first match wins. -/
def baseRecommendation (sleep load : String) : String :=
  if sleep = "POOR" ∧ load = "PACKED" then msgPoorPacked
  else if sleep = "POOR" ∧ load = "LIGHT" then msgPoorLight
  else if sleep = "POOR" ∧ load = "CLEAR" then msgPoorClear
  else if sleep = "OK" ∧ load = "PACKED" then msgOkPacked
  else if sleep = "GOOD" then msgGoodSleep
  else msgDefault

/-- Sleep-quality section of `classify`. It writes into a zero-valued
`Classification`, so a branch that assigns nothing leaves the Go zero
value `""`; in particular, when sleep data is available and current but
`TotalHours` is nil, the quality remains `""`. -/
def sleepQualityOf (s : SleepData) : String :=
  if !s.DataAvailable || !s.IsCurrentDay then "UNKNOWN"
  else
    match s.TotalHours with
    | some hours =>
      let q : String := if hours ≥ 7 then "GOOD" else if hours ≥ 5 then "OK" else "POOR"
      match s.DeepHours with
      | some deep =>
        if deep < 1 then
          if q = "GOOD" then "OK" else if q = "OK" then "POOR" else q
        else q
      | none => q
    | none => ""

/-- Recovery-status section of `classify` (from the HRV field). -/
def recoveryStatusOf (hrv : Option ℚ) : String :=
  match hrv with
  | none => "UNKNOWN"
  | some v => if v ≤ 20 then "POOR" else if v < 40 then "OK" else "GOOD"

/-- Morning-load section of `classify` (from `MorningCount`). -/
def morningLoadOf (count : Nat) : String :=
  if count = 0 then "CLEAR" else if count ≤ 2 then "LIGHT" else "PACKED"

/-- Recommendation section of `classify`. The recovery branch requires
`recovery == "POOR" && b.Vitals.HRV != nil` in the source; it is modelled
by matching on the HRV option first. -/
def recommendationOf (sleep load recovery : String) (hrv : Option ℚ) : String :=
  match hrv with
  | some v =>
    if recovery = "POOR" then
      if sleep = "POOR" then msgCombinedPoor else msgLowHRV v
    else baseRecommendation sleep load
  | none => baseRecommendation sleep load

/-- `classify` from the source, assembled from its four sections in the
source's order. -/
def classify (b : MorningBriefing) : MorningBriefing :=
  let sleepQuality := sleepQualityOf b.Sleep
  let recoveryStatus := recoveryStatusOf b.Vitals.HRV
  let morningLoad := morningLoadOf b.Calendar.MorningCount
  { b with Classif :=
      { SleepQuality := sleepQuality
        MorningLoad := morningLoad
        RecoveryStatus := recoveryStatus
        Recommendation := recommendationOf sleepQuality morningLoad recoveryStatus b.Vitals.HRV } }

/-! ## Calendar date arithmetic (for Go `time` operations) -/

def isLeapYear (y : Nat) : Bool :=
  (y % 4 == 0 && y % 100 != 0) || y % 400 == 0

def daysInMonth (y m : Nat) : Nat :=
  if m = 2 then (if isLeapYear y then 29 else 28)
  else if m = 4 ∨ m = 6 ∨ m = 9 ∨ m = 11 then 30
  else 31

/-- Days since 1970-01-01 of a proleptic-Gregorian civil date (valid for
year ≥ 1, which covers every date Go's zero time onward can produce). -/
def daysFromCivil (y m d : Nat) : Int :=
  let yAdj := if m ≤ 2 then y - 1 else y
  let era := yAdj / 400
  let yoe := yAdj % 400
  let doy := (153 * (if 2 < m then m - 3 else m + 9) + 2) / 5 + d - 1
  let doe := yoe * 365 + yoe / 4 - yoe / 100 + doy
  (era * 146097 + doe : Int) - 719468

/-- Civil date of a day number (inverse of `daysFromCivil`). -/
def civilFromDays (z : Int) : Int × Nat × Nat :=
  let z2 := z + 719468
  let era : Int := Int.fdiv z2 146097
  let doe : Nat := (z2 - era * 146097).toNat
  let yoe := (doe - doe / 1460 + doe / 36524 - doe / 146096) / 365
  let y : Int := era * 400 + yoe
  let doy := doe - (365 * yoe + yoe / 4 - yoe / 100)
  let mp := (5 * doy + 2) / 153
  let d := doy - (153 * mp + 2) / 5 + 1
  let m := if mp < 10 then mp + 3 else mp - 9
  (if m ≤ 2 then y + 1 else y, m, d)

def pad2 (n : Nat) : String :=
  if n < 10 then "0" ++ toString n else toString n

def pad4 (n : Nat) : String :=
  if n < 10 then "000" ++ toString n
  else if n < 100 then "00" ++ toString n
  else if n < 1000 then "0" ++ toString n
  else toString n

/-- Go layout "2006-01-02" of a civil date (negative years cannot arise
from the program's inputs; they are rendered with a leading minus). -/
def formatCivil : Int × Nat × Nat → String
  | (y, m, d) =>
    (if y < 0 then "-" ++ pad4 (-y).toNat else pad4 y.toNat) ++
      "-" ++ pad2 m ++ "-" ++ pad2 d

def digitVal (c : Char) : Option Nat :=
  if c.isDigit then some (c.toNat - 48) else none

def digits2 : List Char → Option (Nat × List Char)
  | c1 :: c2 :: rest =>
    match digitVal c1, digitVal c2 with
    | some a, some b => some (10 * a + b, rest)
    | _, _ => none
  | _ => none

def digits4 : List Char → Option (Nat × List Char)
  | c1 :: c2 :: c3 :: c4 :: rest =>
    match digitVal c1, digitVal c2, digitVal c3, digitVal c4 with
    | some a, some b, some c, some d => some (1000 * a + 100 * b + 10 * c + d, rest)
    | _, _, _, _ => none
  | _ => none

/-- Go `time.Parse("2006-01-02", s)`: four-digit year, two-digit month
and day, with range validation. -/
def parseDate (s : String) : Option (Nat × Nat × Nat) :=
  match digits4 s.toList with
  | some (y, '-' :: r1) =>
    match digits2 r1 with
    | some (m, '-' :: r2) =>
      match digits2 r2 with
      | some (d, []) =>
        if 1 ≤ m ∧ m ≤ 12 ∧ 1 ≤ d ∧ d ≤ daysInMonth y m then some (y, m, d) else none
      | _ => none
    | _ => none
  | _ => none

/-- `yesterday` from the source: parse "YYYY-MM-DD", subtract one day,
re-format. Go discards the parse error and then operates on the zero
time (year 1, January 1); `getD` mirrors that. -/
def yesterday (today : String) : String :=
  match (parseDate today).getD (1, 1, 1) with
  | (y, m, d) => formatCivil (civilFromDays (daysFromCivil y m d - 1))

/-- A Go `time.Time` instant as the program observes it: wall-clock
fields plus the zone offset (seconds east of UTC). Sub-second precision
is dropped: no behavior under the claims observes it. -/
structure GoTime where
  Year : Nat
  Month : Nat
  Day : Nat
  Hour : Nat
  Minute : Nat
  Second : Nat
  OffsetSeconds : Int
deriving Repr, DecidableEq

/-- Zone suffix of an RFC3339 timestamp: "Z" or ±hh:mm. -/
def parseZone : List Char → Option Int
  | ['Z'] => some 0
  | c :: rest =>
    if c = '+' ∨ c = '-' then
      match digits2 rest with
      | some (h, ':' :: r1) =>
        match digits2 r1 with
        | some (m, []) =>
          if h ≤ 23 ∧ m ≤ 59 then
            some (if c = '+' then (h * 3600 + m * 60 : Int) else -(h * 3600 + m * 60 : Int))
          else none
        | _ => none
      | _ => none
    else none
  | _ => none

/-- Optional fractional-second part; its digits are ignored (sub-second
precision is not modelled). -/
def skipFraction : List Char → Option (List Char)
  | '.' :: rest =>
    if (rest.takeWhile (fun c => c.isDigit)).isEmpty then none
    else some (rest.dropWhile (fun c => c.isDigit))
  | l => some l

/-- Go `time.Parse(time.RFC3339, s)`: fixed layout
year-month-dayThour:minute:second[.fraction](Z or ±hh:mm), with
component ranges validated. -/
def parseRFC3339 (s : String) : Option GoTime :=
  match digits4 s.toList with
  | some (y, '-' :: r1) =>
    match digits2 r1 with
    | some (mo, '-' :: r2) =>
      match digits2 r2 with
      | some (d, 'T' :: r3) =>
        match digits2 r3 with
        | some (h, ':' :: r4) =>
          match digits2 r4 with
          | some (mi, ':' :: r5) =>
            match digits2 r5 with
            | some (se, r6) =>
              match skipFraction r6 with
              | some r7 =>
                match parseZone r7 with
                | some off =>
                  if 1 ≤ mo ∧ mo ≤ 12 ∧ 1 ≤ d ∧ d ≤ daysInMonth y mo ∧
                      h ≤ 23 ∧ mi ≤ 59 ∧ se ≤ 59 then
                    some ⟨y, mo, d, h, mi, se, off⟩
                  else none
                | none => none
              | none => none
            | none => none
          | _ => none
        | _ => none
      | _ => none
    | _ => none
  | _ => none

/-- The absolute instant of a `GoTime` in seconds since the epoch. -/
def epochSeconds (t : GoTime) : Int :=
  daysFromCivil t.Year t.Month t.Day * 86400 +
    (t.Hour * 3600 + t.Minute * 60 + t.Second : Nat) - t.OffsetSeconds

/-- Go `t.Format("2006-01-02")` (wall-clock date in the time's zone). -/
def goFormatDate (t : GoTime) : String :=
  pad4 t.Year ++ "-" ++ pad2 t.Month ++ "-" ++ pad2 t.Day

/-- Go `t.Format("15:04")`. -/
def goFormatHM (t : GoTime) : String :=
  pad2 t.Hour ++ ":" ++ pad2 t.Minute

/-- Go `t.Format(time.RFC3339)` (offset 0 rendered as "Z", as for UTC). -/
def goFormatRFC3339 (t : GoTime) : String :=
  goFormatDate t ++ "T" ++ goFormatHM t ++ ":" ++ pad2 t.Second ++
    (if t.OffsetSeconds = 0 then "Z"
      else (if t.OffsetSeconds < 0 then "-" else "+") ++
        pad2 (t.OffsetSeconds.natAbs / 3600) ++ ":" ++
        pad2 (t.OffsetSeconds.natAbs % 3600 / 60))

/-- Go `t.AddDate(0, 0, n)`: pure day arithmetic on the wall date. -/
def goAddDays (t : GoTime) (n : Int) : GoTime :=
  match civilFromDays (daysFromCivil t.Year t.Month t.Day + n) with
  | (y, m, d) => { t with Year := y.toNat, Month := m, Day := d }

/-! ## String helpers (Go `strings` package) -/

def containsAux (needle : List Char) : List Char → Bool
  | [] => needle.isEmpty
  | c :: rest => needle.isPrefixOf (c :: rest) || containsAux needle rest

/-- Go `strings.Contains`. -/
def goContains (s sub : String) : Bool :=
  containsAux sub.toList s.toList

/-- Go `strings.HasPrefix`. -/
def goHasPrefix (s p : String) : Bool :=
  p.toList.isPrefixOf s.toList

/-! ## Source payloads (parsed command outputs) and outcomes -/

/-- One entry of the health-ingest summary's `LatestStats` map. -/
structure StatEntry where
  Value : ℚ
  Unit : String
  Timestamp : String
deriving Repr, DecidableEq

/-- Health-ingest summary; `LatestStats` is modelled as an association
list with unique keys (a Go map), looked up with `List.lookup`. -/
structure HealthSummary where
  LatestStats : List (String × StatEntry)
deriving Repr, DecidableEq

def lookupStat (hs : HealthSummary) (key : String) : Option StatEntry :=
  hs.LatestStats.lookup key

structure TodoistDue where
  Date : String
  DateTime : String
deriving Repr, DecidableEq

structure TodoistTask where
  Content : String
  Labels : List String
  IsCompleted : Bool
  Due : Option TodoistDue
deriving Repr, DecidableEq

structure TodoistResponse where
  Results : List TodoistTask
deriving Repr, DecidableEq

structure GogEventStart where
  DateTime : String
  Date : String
deriving Repr, DecidableEq

structure GogCalendarEvent where
  Start : GogEventStart
  Summary : String
deriving Repr, DecidableEq

structure GogCalendarResponse where
  Events : List GogCalendarEvent
deriving Repr, DecidableEq

structure HevyExercise where
  Name : String
deriving Repr, DecidableEq

structure HevyWorkout where
  ID : String
  Title : String
  StartTime : String
  Duration : String
  Exercises : List HevyExercise
deriving Repr, DecidableEq

/-- One row of the SQLite `metrics` table. -/
structure MetricRow where
  MetricName : String
  Timestamp : String
  Value : ℚ
deriving Repr, DecidableEq

/-- Outcome of invoking one external source command: the command fails
(transport error / non-zero exit), its output fails to parse as JSON, or
it yields a payload. -/
inductive FetchResult (α : Type) where
  | cmdError (msg : String)
  | parseError (msg : String)
  | ok (payload : α)
deriving Repr, DecidableEq

/-- Outcome of opening the SQLite database: an open error, or the rows of
the `metrics` table. The individual queries in the source can only fail
on database-level errors, which the row-list model cannot produce, so
the query functions below are total. -/
inductive DBResult where
  | openError (msg : String)
  | ok (rows : List MetricRow)
deriving Repr, DecidableEq

/-! ## Fetch stages (morning mode) -/

/-- `getHealthData` from the source: populate sleep and vitals from the
health-ingest summary; on a command or parse failure only append the
warning. `IsCurrentDay` is set when the sleep timestamp contains today
or yesterday. -/
def getHealthData (b : MorningBriefing) (today : String)
    (r : FetchResult HealthSummary) : MorningBriefing :=
  match r with
  | .cmdError e => { b with Errors := b.Errors ++ ["health-ingest error: " ++ e] }
  | .parseError e => { b with Errors := b.Errors ++ ["health JSON parse error: " ++ e] }
  | .ok summary =>
    let b :=
      match lookupStat summary "sleep_total" with
      | some sleep =>
        { b with Sleep := { b.Sleep with
            DataAvailable := true
            TotalHours := some sleep.Value
            DataDate := sleep.Timestamp
            IsCurrentDay :=
              if goContains sleep.Timestamp today ||
                  goContains sleep.Timestamp (yesterday today) then true
              else b.Sleep.IsCurrentDay } }
      | none => b
    let b :=
      match lookupStat summary "sleep_deep" with
      | some deep => { b with Sleep := { b.Sleep with DeepHours := some deep.Value } }
      | none => b
    let b :=
      match lookupStat summary "sleep_rem" with
      | some rem => { b with Sleep := { b.Sleep with REMHours := some rem.Value } }
      | none => b
    let b :=
      match lookupStat summary "resting_heart_rate" with
      | some rhr => { b with Vitals := { b.Vitals with RestingHR := some rhr.Value } }
      | none => b
    let b :=
      match lookupStat summary "heart_rate_variability" with
      | some hrv => { b with Vitals := { b.Vitals with HRV := some hrv.Value } }
      | none => b
    match lookupStat summary "blood_oxygen_saturation" with
    | some spo2 => { b with Vitals := { b.Vitals with SpO2 := some spo2.Value } }
    | none => b

/-- Row filter of the SQLite queries: metric name equal and
`timestamp LIKE date || '%'`. -/
def tsMatches (row : MetricRow) (name date : String) : Bool :=
  row.MetricName == name && goHasPrefix row.Timestamp date

/-- `queryAverageHRV`: AVG(value) over matching rows; NULL (none) when no
row matches. -/
def queryAverageHRV (rows : List MetricRow) (date : String) : Option ℚ :=
  let vals := (rows.filter (fun r => tsMatches r "heart_rate_variability" date)).map
    (fun r => r.Value)
  if vals.isEmpty then none else some (vals.sum / (vals.length : ℚ))

/-- `querySleepStages`: the source iterates the matching rows, assigning
into deep/rem/core per metric name, so for each stage the last matching
row in row order wins. -/
def querySleepStages (rows : List MetricRow) (date : String) :
    Option ℚ × Option ℚ × Option ℚ :=
  rows.foldl
    (fun acc r =>
      if goHasPrefix r.Timestamp date then
        match r.MetricName with
        | "sleep_deep" => (some r.Value, acc.2.1, acc.2.2)
        | "sleep_rem" => (acc.1, some r.Value, acc.2.2)
        | "sleep_core" => (acc.1, acc.2.1, some r.Value)
        | _ => acc
      else acc)
    (none, none, none)

/-- `ORDER BY timestamp DESC LIMIT 1` over the matching rows: a row with
the greatest timestamp (SQLite leaves the choice among equal timestamps
unspecified; the model keeps the first such row). -/
def latestRow (cands : List MetricRow) : Option MetricRow :=
  cands.foldl
    (fun acc r =>
      match acc with
      | none => some r
      | some best => if best.Timestamp < r.Timestamp then some r else acc)
    none

/-- `queryLatestRespiratoryRate`: latest matching value, none when no row
matches (or the value is NULL, which the ℚ-valued model cannot hold). -/
def queryLatestRespiratoryRate (rows : List MetricRow) (date : String) : Option ℚ :=
  (latestRow (rows.filter (fun r => tsMatches r "respiratory_rate" date))).map
    (fun r => r.Value)

/-- `queryDayTotal` (evening): `COALESCE(SUM(value), 0)` — the sum of the
matching rows' values, hence 0 when no row matches. -/
def queryDayTotal (rows : List MetricRow) (metricName date : String) : ℚ :=
  ((rows.filter (fun r => tsMatches r metricName date)).map (fun r => r.Value)).sum

/-- `queryLatestValue` (evening): latest matching value for a metric. -/
def queryLatestValue (rows : List MetricRow) (metricName date : String) : Option ℚ :=
  (latestRow (rows.filter (fun r => tsMatches r metricName date))).map
    (fun r => r.Value)

/-- `getHealthDataFromSQLite` from the source: each metrics-store value,
when present, overwrites the corresponding summary-provider field; an
absent value leaves the field as it was. -/
def getHealthDataFromSQLite (b : MorningBriefing) (today : String)
    (r : DBResult) : MorningBriefing :=
  match r with
  | .openError e => { b with Errors := b.Errors ++ ["sqlite open error: " ++ e] }
  | .ok rows =>
    let b :=
      match queryAverageHRV rows today with
      | some avg => { b with Vitals := { b.Vitals with HRV := some avg } }
      | none => b
    let stages := querySleepStages rows today
    let b :=
      match stages.1 with
      | some deep => { b with Sleep := { b.Sleep with DeepHours := some deep } }
      | none => b
    let b :=
      match stages.2.1 with
      | some rem => { b with Sleep := { b.Sleep with REMHours := some rem } }
      | none => b
    let b :=
      match stages.2.2 with
      | some core => { b with Sleep := { b.Sleep with CoreHours := some core } }
      | none => b
    match queryLatestRespiratoryRate rows today with
    | some rr => { b with Vitals := { b.Vitals with RespiratoryRate := some rr } }
    | none => b

/-- Loop of `getCalendarEvents`: bucket today's timed events by wall-clock
hour into morning (< 12) and afternoon (12–17); all-day events, events of
other days, events outside the window and unparseable start times are
skipped. The `Source` field of the Go struct is named `EventSource`
here. -/
def addCalendarEvents (c : CalendarData) (today tag : String)
    (events : List GogCalendarEvent) : CalendarData :=
  events.foldl
    (fun c e =>
      if e.Start.DateTime = "" then c
      else if !goHasPrefix e.Start.DateTime today then c
      else
        match parseRFC3339 e.Start.DateTime with
        | none => c
        | some t =>
          let event : CalendarEvent :=
            { Time := goFormatHM t, Summary := e.Summary, EventSource := tag }
          if t.Hour < 12 then { c with MorningEvents := c.MorningEvents ++ [event] }
          else if t.Hour < 18 then { c with AfternoonEvents := c.AfternoonEvents ++ [event] }
          else c)
    c

/-- `getCalendarEvents` from the source (one account): warning on
failure, otherwise bucket the events. -/
def getCalendarEvents (b : MorningBriefing) (today tag : String)
    (r : FetchResult GogCalendarResponse) : MorningBriefing :=
  match r with
  | .cmdError e =>
    { b with Errors := b.Errors ++ ["calendar error (" ++ tag ++ "): " ++ e] }
  | .parseError e =>
    { b with Errors := b.Errors ++ ["calendar JSON parse error (" ++ tag ++ "): " ++ e] }
  | .ok resp => { b with Calendar := addCalendarEvents b.Calendar today tag resp.Events }

/-- `getCalendarData` from the source: personal account then work
account, then the morning count and first event time. -/
def getCalendarData (b : MorningBriefing) (today : String)
    (rPersonal rWork : FetchResult GogCalendarResponse) : MorningBriefing :=
  let b := getCalendarEvents b today "personal" rPersonal
  let b := getCalendarEvents b today "work" rWork
  let b := { b with Calendar :=
    { b.Calendar with MorningCount := b.Calendar.MorningEvents.length } }
  match b.Calendar.MorningEvents with
  | [] => b
  | e :: _ => { b with Calendar := { b.Calendar with FirstEventTime := e.Time } }

/-- Membership in the medication label set (the two sentinel labels of
the source, UTF-8 decoded). -/
def isMedLabelled (labels : List String) : Bool :=
  labels.any (fun l => l == "💊Meds" || l == "💉")

/-- The `MedTask` record built from a Todoist task: due date only when a
due object is present; due time only when its DateTime parses. -/
def mkMedTask (task : TodoistTask) : MedTask :=
  match task.Due with
  | none => { Name := task.Content, DueTime := "", DueDate := "" }
  | some due =>
    { Name := task.Content
      DueDate := due.Date
      DueTime :=
        if due.DateTime ≠ "" then
          match parseRFC3339 due.DateTime with
          | some t => goFormatHM t
          | none => ""
        else "" }

/-- Loop body of `getMedsData`: a med-labelled task is bucketed into
completed, overdue (uncompleted, due object present, due date
byte-before today) or due-today (everything else, including tasks with
no due object at all); non-med tasks are skipped. -/
def bucketMedTask (m : MedsData) (today : String) (task : TodoistTask) : MedsData :=
  if !isMedLabelled task.Labels then m
  else
    let med := mkMedTask task
    if task.IsCompleted then { m with Completed := m.Completed ++ [med] }
    else
      match task.Due with
      | some due =>
        if due.Date < today then { m with Overdue := m.Overdue ++ [med] }
        else { m with DueToday := m.DueToday ++ [med] }
      | none => { m with DueToday := m.DueToday ++ [med] }

/-- The `getMedsData` loop over the task list. -/
def addMedTasks (today : String) : MedsData → List TodoistTask → MedsData
  | m, [] => m
  | m, task :: rest => addMedTasks today (bucketMedTask m today task) rest

/-- `getMedsData` from the source. -/
def getMedsData (b : MorningBriefing) (today : String)
    (r : FetchResult TodoistResponse) : MorningBriefing :=
  match r with
  | .cmdError e => { b with Errors := b.Errors ++ ["todoist error: " ++ e] }
  | .parseError e => { b with Errors := b.Errors ++ ["todoist JSON parse error: " ++ e] }
  | .ok resp => { b with Meds := addMedTasks today b.Meds resp.Results }

/-- The overdue test of the meds loop, as a predicate: uncompleted
bucketing compares the due date when a due object exists. -/
def isOverdueTask (task : TodoistTask) (today : String) : Bool :=
  match task.Due with
  | some due => decide (due.Date < today)
  | none => false

/-- Loop of `getTrainingData`, with the index to mirror the `i == 0`
test: a workout whose start time fails to parse is skipped entirely
(`continue`), so it neither sets the last workout nor counts. The first
listed workout sets `LastWorkout` and `DaysSinceLast`
(`int(now.Sub(date).Hours() / 24)`, Go truncation, i.e. `Int.tdiv` of the
second difference by 86400); `WeeklyCount` counts workouts strictly
after `now.AddDate(0, 0, -7)`. -/
def addWorkouts (t : TrainingData) (now : GoTime) (idx : Nat)
    (workouts : List HevyWorkout) : TrainingData :=
  match workouts with
  | [] => t
  | w :: rest =>
    match parseRFC3339 w.StartTime with
    | none => addWorkouts t now (idx + 1) rest
    | some workoutDate =>
      let summary : WorkoutSummary :=
        { ID := w.ID, Title := w.Title, Date := goFormatDate workoutDate,
          Duration := w.Duration, Exercises := w.Exercises.map (fun e => e.Name) }
      let t :=
        if idx = 0 then
          { t with LastWorkout := some summary
                   DaysSinceLast :=
                     Int.tdiv (epochSeconds now - epochSeconds workoutDate) 86400 }
        else t
      let t :=
        if epochSeconds (goAddDays now (-7)) < epochSeconds workoutDate then
          { t with WeeklyCount := t.WeeklyCount + 1 }
        else t
      addWorkouts { t with RecentWorkouts := t.RecentWorkouts ++ [summary] } now (idx + 1) rest

/-- `getTrainingData` from the source. The source calls `time.Now()` a
second time inside this function; both clock reads are modelled as the
same instant `now`. The Go local `weeklyCount` starts at zero and is
written back unconditionally after the loop. -/
def getTrainingData (b : MorningBriefing) (now : GoTime)
    (r : FetchResult (List HevyWorkout)) : MorningBriefing :=
  match r with
  | .cmdError e => { b with Errors := b.Errors ++ ["hevy error: " ++ e] }
  | .parseError e => { b with Errors := b.Errors ++ ["hevy JSON parse error: " ++ e] }
  | .ok workouts =>
    if workouts.isEmpty then b
    else
      let t := addWorkouts ({ b.Training with WeeklyCount := 0 }) now 0 workouts
      { b with Training := t }

/-- The briefing as `main` constructs it before the fetch phase: target
date and generation time from the clock, every other field at its Go
zero value. -/
def initialMorningBriefing (now : GoTime) : MorningBriefing :=
  { GeneratedAt := goFormatRFC3339 now
    TargetDate := goFormatDate now
    Sleep := { TotalHours := none, DeepHours := none, REMHours := none,
               CoreHours := none, DataDate := "", IsCurrentDay := false,
               DataAvailable := false }
    Vitals := { RestingHR := none, HRV := none, SpO2 := none, RespiratoryRate := none }
    Calendar := { MorningEvents := [], AfternoonEvents := [], MorningCount := 0,
                  FirstEventTime := "" }
    Meds := { DueToday := [], Overdue := [], Completed := [] }
    Training := { LastWorkout := none, DaysSinceLast := 0, RecentWorkouts := [],
                  WeeklyCount := 0 }
    Classif := { SleepQuality := "", MorningLoad := "", RecoveryStatus := "",
                 Recommendation := "" }
    Errors := [] }

/-- `main` from the source (morning mode): construct the briefing with
all Go zero values, run the five fetch stages in order, then classify.
The external command outcomes are the pipeline's inputs; the pipeline is
a total function — no per-source failure can abort it. -/
def morningPipeline (now : GoTime) (rHealth : FetchResult HealthSummary)
    (rDB : DBResult) (rCalPersonal rCalWork : FetchResult GogCalendarResponse)
    (rMeds : FetchResult TodoistResponse)
    (rHevy : FetchResult (List HevyWorkout)) : MorningBriefing :=
  let today := goFormatDate now
  let b := initialMorningBriefing now
  let b := getHealthData b today rHealth
  let b := getHealthDataFromSQLite b today rDB
  let b := getCalendarData b today rCalPersonal rCalWork
  let b := getMedsData b today rMeds
  let b := getTrainingData b now rHevy
  classify b

/-! ## Evening data model and health fetch (the claims' evening parts) -/

structure WorkoutInfo where
  Done : Bool
  Title : String
  Duration : String
deriving Repr, DecidableEq

structure EnergyData where
  DeficitOrSurplusKcal : Int
  Status : String
  BMRKcal : Int
  ActiveKcal : ℚ
  TotalBurnedKcal : ℚ
  ConsumedKcal : ℚ
deriving Repr, DecidableEq

structure ProteinData where
  ConsumedG : ℚ
  TargetG : Int
  RemainingG : ℚ
  OnTrack : Bool
deriving Repr, DecidableEq

structure ActivityData where
  Steps : Int
  Workout : Option WorkoutInfo
  StandHours : Int
deriving Repr, DecidableEq

structure SleepInfo where
  TotalHrs : ℚ
  DeepHrs : ℚ
deriving Repr, DecidableEq

structure RecoveryData where
  HRVMS : ℚ
  HRVYesterdayMS : ℚ
  RestingHRBPM : ℚ
  SleepLastNight : SleepInfo
deriving Repr, DecidableEq

/-- The evening briefing, restricted to the records the claims touch
(the source's protocols and tomorrow-preview sections are outside every
claim and are not modelled). -/
structure EveningBriefing where
  Mode : String
  GeneratedAt : String
  TargetDate : String
  Energy : EnergyData
  Protein : ProteinData
  Activity : ActivityData
  Recovery : RecoveryData
  Errors : List String
deriving Repr, DecidableEq

/-- The evening briefing as `RunEveningBriefing` constructs it before
the fetches: BMR and protein target from the user constants, everything
else at Go zero values. -/
def initialEveningBriefing (now : GoTime) : EveningBriefing :=
  { Mode := "evening"
    GeneratedAt := goFormatRFC3339 now
    TargetDate := goFormatDate now
    Energy := { DeficitOrSurplusKcal := 0, Status := "", BMRKcal := UserBMRKcal,
                ActiveKcal := 0, TotalBurnedKcal := 0, ConsumedKcal := 0 }
    Protein := { ConsumedG := 0, TargetG := UserProteinTargetG, RemainingG := 0,
                 OnTrack := false }
    Activity := { Steps := 0, Workout := none, StandHours := 0 }
    Recovery := { HRVMS := 0, HRVYesterdayMS := 0, RestingHRBPM := 0,
                  SleepLastNight := { TotalHrs := 0, DeepHrs := 0 } }
    Errors := [] }

/-- `getEveningHealthData` from the source: day totals (which COALESCE a
missing metric to 0), energy balance, protein, steps and stand hours (Go
`int` truncation), HRV today/yesterday, resting HR and last-night
sleep. -/
def getEveningHealthData (b : EveningBriefing) (today yesterdayDate : String)
    (r : DBResult) : EveningBriefing :=
  match r with
  | .openError e => { b with Errors := b.Errors ++ ["sqlite open error: " ++ e] }
  | .ok rows =>
    let b := { b with Energy :=
      { b.Energy with ActiveKcal := queryDayTotal rows "active_energy" today } }
    let b := { b with Energy :=
      { b.Energy with ConsumedKcal := queryDayTotal rows "dietary_energy" today } }
    let b := { b with Energy :=
      { b.Energy with TotalBurnedKcal := (b.Energy.BMRKcal : ℚ) + b.Energy.ActiveKcal } }
    let result := CalculateEnergyBalance b.Energy.BMRKcal b.Energy.ActiveKcal
      b.Energy.ConsumedKcal
    let b := { b with Energy :=
      { b.Energy with DeficitOrSurplusKcal := result.1, Status := result.2 } }
    let protein := queryDayTotal rows "protein" today
    let ps := CalculateProteinStatus protein (b.Protein.TargetG : ℚ)
    let b := { b with Protein :=
      { b.Protein with ConsumedG := protein, RemainingG := ps.1, OnTrack := ps.2 } }
    let b := { b with Activity :=
      { b.Activity with Steps := goTruncToInt (queryDayTotal rows "steps" today) } }
    let b := { b with Activity :=
      { b.Activity with StandHours := goTruncToInt (queryDayTotal rows "stand_hours" today) } }
    let b :=
      match queryAverageHRV rows today with
      | some v => { b with Recovery := { b.Recovery with HRVMS := v } }
      | none => b
    let b :=
      match queryAverageHRV rows yesterdayDate with
      | some v => { b with Recovery := { b.Recovery with HRVYesterdayMS := v } }
      | none => b
    let b :=
      match queryLatestValue rows "resting_heart_rate" today with
      | some v => { b with Recovery := { b.Recovery with RestingHRBPM := v } }
      | none => b
    let b :=
      match queryLatestValue rows "sleep_total" today with
      | some v => { b with Recovery := { b.Recovery with SleepLastNight :=
          { b.Recovery.SleepLastNight with TotalHrs := v } } }
      | none => b
    match queryLatestValue rows "sleep_deep" today with
    | some v => { b with Recovery := { b.Recovery with SleepLastNight :=
        { b.Recovery.SleepLastNight with DeepHrs := v } } }
    | none => b

/-- The warning strings one command-based fetch contributes: one tagged
warning on a command or parse failure, nothing on success. -/
def fetchWarnings (cmdMsg parseMsg : String) : FetchResult α → List String
  | .cmdError e => [cmdMsg ++ e]
  | .parseError e => [parseMsg ++ e]
  | .ok _ => []

/-- The warning strings the SQLite stage contributes. -/
def dbWarnings : DBResult → List String
  | .openError e => ["sqlite open error: " ++ e]
  | .ok _ => []

/-- A briefing with given sleep, vitals and morning count, all other
fields at their Go zero values, as `main` constructs the briefing before
the fetch phase. Used to instantiate classification theorems. -/
def testBriefing (sleep : SleepData) (vitals : VitalsData) (count : Nat) : MorningBriefing :=
  { GeneratedAt := ""
    TargetDate := ""
    Sleep := sleep
    Vitals := vitals
    Calendar := { MorningEvents := [], AfternoonEvents := [], MorningCount := count,
                  FirstEventTime := "" }
    Meds := { DueToday := [], Overdue := [], Completed := [] }
    Training := { LastWorkout := none, DaysSinceLast := 0, RecentWorkouts := [],
                  WeeklyCount := 0 }
    Classif := { SleepQuality := "", MorningLoad := "", RecoveryStatus := "",
                 Recommendation := "" }
    Errors := [] }

/-! ## Theorems -/

/-- C1: sleep quality is UNKNOWN when sleep data is unavailable or not
current-day; otherwise, when total hours are present, the base quality is
GOOD for h ≥ 7, OK for 5 ≤ h < 7 and POOR for h < 5; known deep sleep
below 1.0 h downgrades one step (GOOD→OK, OK→POOR, POOR stays POOR),
while absent or sufficient deep sleep leaves the base result. -/
theorem classify_sleepQuality_spec (b : MorningBriefing) :
    ((b.Sleep.DataAvailable = false ∨ b.Sleep.IsCurrentDay = false) →
      (classify b).Classif.SleepQuality = "UNKNOWN") ∧
    (∀ h : ℚ, b.Sleep.DataAvailable = true → b.Sleep.IsCurrentDay = true →
      b.Sleep.TotalHours = some h →
      (b.Sleep.DeepHours = none →
        (classify b).Classif.SleepQuality =
          (if 7 ≤ h then "GOOD" else if 5 ≤ h then "OK" else "POOR")) ∧
      (∀ d : ℚ, b.Sleep.DeepHours = some d → 1 ≤ d →
        (classify b).Classif.SleepQuality =
          (if 7 ≤ h then "GOOD" else if 5 ≤ h then "OK" else "POOR")) ∧
      (∀ d : ℚ, b.Sleep.DeepHours = some d → d < 1 →
        (classify b).Classif.SleepQuality =
          (if 7 ≤ h then "OK" else "POOR"))) := by
  have hq : (classify b).Classif.SleepQuality = sleepQualityOf b.Sleep := rfl
  rw [hq]
  constructor
  · rintro (ha | ha) <;> simp [sleepQualityOf, ha]
  · intro h ha hc ht
    refine ⟨?_, ?_, ?_⟩
    · intro hd
      simp only [sleepQualityOf, ha, hc, ht, hd, Bool.not_true, Bool.or_self,
        Bool.false_eq_true, if_false]
    · intro d hd hge
      simp only [sleepQualityOf, ha, hc, ht, hd, Bool.not_true, Bool.or_self,
        Bool.false_eq_true, if_false]
      rw [if_neg (not_lt.mpr hge)]
    · intro d hd hlt
      simp only [sleepQualityOf, ha, hc, ht, hd, Bool.not_true, Bool.or_self,
        Bool.false_eq_true, if_false]
      rw [if_pos hlt]
      by_cases h7 : 7 ≤ h
      · rw [if_pos h7, if_pos h7]
        simp
      · rw [if_neg h7, if_neg h7]
        by_cases h5 : 5 ≤ h
        · rw [if_pos h5]
          simp
        · rw [if_neg h5]
          simp

/-- Witness for C1: unavailable data gives UNKNOWN; 7.5 h of sleep
with 0.5 h of deep sleep gives OK (downgraded from GOOD). -/
theorem classify_sleepQuality_spec_witness :
    ((testBriefing ⟨none, none, none, none, "", false, false⟩
        ⟨none, none, none, none⟩ 0).Sleep.DataAvailable = false ∨
      (testBriefing ⟨none, none, none, none, "", false, false⟩
        ⟨none, none, none, none⟩ 0).Sleep.IsCurrentDay = false) ∧
    (classify (testBriefing ⟨none, none, none, none, "", false, false⟩
        ⟨none, none, none, none⟩ 0)).Classif.SleepQuality = "UNKNOWN" ∧
    (classify (testBriefing ⟨some (15/2), some (1/2), none, none, "", true, true⟩
        ⟨none, none, none, none⟩ 0)).Classif.SleepQuality = "OK" := by
  refine ⟨Or.inl rfl, ?_, ?_⟩
  · exact (classify_sleepQuality_spec _).1 (Or.inl rfl)
  · have := ((classify_sleepQuality_spec
      (testBriefing ⟨some (15/2), some (1/2), none, none, "", true, true⟩
        ⟨none, none, none, none⟩ 0)).2 (15/2) rfl rfl rfl).2.2 (1/2) rfl (by norm_num)
    rw [this, if_pos (by norm_num)]

/-- Case analysis of the trailing recommendation chain: first match wins,
in the source's order. Shared helper for the recommendation theorem. -/
theorem baseRecommendation_cases (sleep load : String) :
    (sleep = "POOR" → load = "PACKED" → baseRecommendation sleep load = msgPoorPacked) ∧
    (sleep = "POOR" → load = "LIGHT" → baseRecommendation sleep load = msgPoorLight) ∧
    (sleep = "POOR" → load = "CLEAR" → baseRecommendation sleep load = msgPoorClear) ∧
    (sleep = "OK" → load = "PACKED" → baseRecommendation sleep load = msgOkPacked) ∧
    (sleep = "GOOD" → baseRecommendation sleep load = msgGoodSleep) ∧
    (sleep ≠ "POOR" → (sleep = "OK" → load ≠ "PACKED") → sleep ≠ "GOOD" →
      baseRecommendation sleep load = msgDefault) := by
  refine ⟨?_, ?_, ?_, ?_, ?_, ?_⟩
  · intro h1 h2
    subst h1
    subst h2
    rfl
  · intro h1 h2
    subst h1
    subst h2
    rfl
  · intro h1 h2
    subst h1
    subst h2
    rfl
  · intro h1 h2
    subst h1
    subst h2
    rfl
  · intro h1
    subst h1
    rfl
  · intro h1 h2 h3
    unfold baseRecommendation
    rw [if_neg (fun hc => h1 hc.1), if_neg (fun hc => h1 hc.1),
      if_neg (fun hc => h1 hc.1), if_neg (fun hc => h2 hc.1 hc.2), if_neg h3]

/-- C2: the recommendation is priority-ordered with first match winning:
poor recovery with known HRV takes precedence (combined message when
sleep is POOR, otherwise a message naming the HRV value); then the
sleep/load chain (POOR+PACKED, POOR+LIGHT, POOR+CLEAR, OK+PACKED, GOOD),
and the data-unavailable default last. In particular HRV 15 with sleep
POOR always yields the combined message, never a plain rough-night
message. -/
theorem classify_recommendation_priority (b : MorningBriefing) :
    (∀ v : ℚ, b.Vitals.HRV = some v →
      (classify b).Classif.RecoveryStatus = "POOR" →
      (classify b).Classif.Recommendation =
        (if (classify b).Classif.SleepQuality = "POOR" then msgCombinedPoor
          else msgLowHRV v)) ∧
    ((classify b).Classif.RecoveryStatus ≠ "POOR" →
      ((classify b).Classif.SleepQuality = "POOR" →
          (classify b).Classif.MorningLoad = "PACKED" →
          (classify b).Classif.Recommendation = msgPoorPacked) ∧
      ((classify b).Classif.SleepQuality = "POOR" →
          (classify b).Classif.MorningLoad = "LIGHT" →
          (classify b).Classif.Recommendation = msgPoorLight) ∧
      ((classify b).Classif.SleepQuality = "POOR" →
          (classify b).Classif.MorningLoad = "CLEAR" →
          (classify b).Classif.Recommendation = msgPoorClear) ∧
      ((classify b).Classif.SleepQuality = "OK" →
          (classify b).Classif.MorningLoad = "PACKED" →
          (classify b).Classif.Recommendation = msgOkPacked) ∧
      ((classify b).Classif.SleepQuality = "GOOD" →
          (classify b).Classif.Recommendation = msgGoodSleep) ∧
      ((classify b).Classif.SleepQuality ≠ "POOR" →
          ((classify b).Classif.SleepQuality = "OK" →
            (classify b).Classif.MorningLoad ≠ "PACKED") →
          (classify b).Classif.SleepQuality ≠ "GOOD" →
          (classify b).Classif.Recommendation = msgDefault)) ∧
    (b.Vitals.HRV = some 15 → (classify b).Classif.SleepQuality = "POOR" →
      (classify b).Classif.Recommendation = msgCombinedPoor ∧
      (classify b).Classif.Recommendation ≠ msgPoorPacked ∧
      (classify b).Classif.Recommendation ≠ msgPoorLight ∧
      (classify b).Classif.Recommendation ≠ msgPoorClear) := by
  have hr : (classify b).Classif.Recommendation =
      recommendationOf (sleepQualityOf b.Sleep) (morningLoadOf b.Calendar.MorningCount)
        (recoveryStatusOf b.Vitals.HRV) b.Vitals.HRV := rfl
  have hs : (classify b).Classif.SleepQuality = sleepQualityOf b.Sleep := rfl
  have hrs : (classify b).Classif.RecoveryStatus = recoveryStatusOf b.Vitals.HRV := rfl
  have hml : (classify b).Classif.MorningLoad = morningLoadOf b.Calendar.MorningCount := rfl
  refine ⟨?_, ?_, ?_⟩
  · intro v hv hpoor
    rw [hrs] at hpoor
    rw [hr, hs, hv]
    rw [hv] at hpoor
    simp only [recommendationOf]
    rw [if_pos hpoor]
  · intro hne
    rw [hrs] at hne
    rw [hr, hs, hml]
    have hbase : recommendationOf (sleepQualityOf b.Sleep)
        (morningLoadOf b.Calendar.MorningCount) (recoveryStatusOf b.Vitals.HRV)
        b.Vitals.HRV =
        baseRecommendation (sleepQualityOf b.Sleep) (morningLoadOf b.Calendar.MorningCount) := by
      cases hv : b.Vitals.HRV with
      | none => simp only [recommendationOf]
      | some v =>
        rw [hv] at hne
        simp only [recommendationOf]
        rw [if_neg hne]
    rw [hbase]
    exact baseRecommendation_cases (sleepQualityOf b.Sleep)
      (morningLoadOf b.Calendar.MorningCount)
  · intro h15 hsq
    rw [hs] at hsq
    have hpoor : recoveryStatusOf b.Vitals.HRV = "POOR" := by
      rw [h15]
      rfl
    rw [hr, h15]
    rw [h15] at hpoor
    simp only [recommendationOf]
    rw [if_pos hpoor, if_pos hsq]
    refine ⟨rfl, ?_, ?_, ?_⟩ <;> decide

/-- Witness for C2: a briefing with HRV 15 (POOR recovery) and 4 h of
sleep (POOR) on a packed morning receives the combined message, not the
rough-night message. -/
theorem classify_recommendation_priority_witness :
    (testBriefing ⟨some 4, none, none, none, "", true, true⟩
        ⟨none, some 15, none, none⟩ 3).Vitals.HRV = some 15 ∧
    (classify (testBriefing ⟨some 4, none, none, none, "", true, true⟩
        ⟨none, some 15, none, none⟩ 3)).Classif.SleepQuality = "POOR" ∧
    (classify (testBriefing ⟨some 4, none, none, none, "", true, true⟩
        ⟨none, some 15, none, none⟩ 3)).Classif.Recommendation = msgCombinedPoor ∧
    (classify (testBriefing ⟨some 4, none, none, none, "", true, true⟩
        ⟨none, some 15, none, none⟩ 3)).Classif.Recommendation ≠ msgPoorPacked := by
  have hsq : (classify (testBriefing ⟨some 4, none, none, none, "", true, true⟩
      ⟨none, some 15, none, none⟩ 3)).Classif.SleepQuality = "POOR" := rfl
  have := (classify_recommendation_priority
    (testBriefing ⟨some 4, none, none, none, "", true, true⟩
      ⟨none, some 15, none, none⟩ 3)).2.2 rfl hsq
  exact ⟨rfl, hsq, this.1, this.2.1⟩

/-- C3: recovery status is UNKNOWN when HRV is absent; otherwise POOR for
HRV ≤ 20, OK for 20 < HRV < 40 and GOOD for HRV ≥ 40. -/
theorem classify_recoveryStatus_spec (b : MorningBriefing) :
    (b.Vitals.HRV = none → (classify b).Classif.RecoveryStatus = "UNKNOWN") ∧
    (∀ v : ℚ, b.Vitals.HRV = some v →
      (v ≤ 20 → (classify b).Classif.RecoveryStatus = "POOR") ∧
      (20 < v → v < 40 → (classify b).Classif.RecoveryStatus = "OK") ∧
      (40 ≤ v → (classify b).Classif.RecoveryStatus = "GOOD")) := by
  have hq : (classify b).Classif.RecoveryStatus = recoveryStatusOf b.Vitals.HRV := rfl
  rw [hq]
  constructor
  · intro h
    rw [h]
    rfl
  · intro v hv
    rw [hv]
    simp only [recoveryStatusOf]
    refine ⟨?_, ?_, ?_⟩
    · intro h
      rw [if_pos h]
    · intro h1 h2
      rw [if_neg (not_le.mpr h1), if_pos h2]
    · intro h
      rw [if_neg (not_le.mpr (by linarith)), if_neg (not_lt.mpr h)]

/-- Witness for C3 at the boundary values: HRV 20 is POOR, HRV 40 is
GOOD, absent HRV is UNKNOWN. -/
theorem classify_recoveryStatus_spec_witness :
    (classify (testBriefing ⟨none, none, none, none, "", false, false⟩
        ⟨none, some 20, none, none⟩ 0)).Classif.RecoveryStatus = "POOR" ∧
    (classify (testBriefing ⟨none, none, none, none, "", false, false⟩
        ⟨none, some 40, none, none⟩ 0)).Classif.RecoveryStatus = "GOOD" ∧
    (classify (testBriefing ⟨none, none, none, none, "", false, false⟩
        ⟨none, none, none, none⟩ 0)).Classif.RecoveryStatus = "UNKNOWN" := by
  refine ⟨?_, ?_, ?_⟩
  · exact (((classify_recoveryStatus_spec _).2 20 rfl).1 (by norm_num))
  · exact (((classify_recoveryStatus_spec _).2 40 rfl).2.2 (by norm_num))
  · exact ((classify_recoveryStatus_spec _).1 rfl)

/-- C7: for every pair of flags, `ParseMode` errors iff both are set,
returns "evening" when only evening is set, and "morning" when only
morning is set or neither is set. -/
theorem parseMode_cases :
    ParseMode true true = .error "cannot specify both --morning and --evening" ∧
    ParseMode false true = .ok "evening" ∧
    ParseMode true false = .ok "morning" ∧
    ParseMode false false = .ok "morning" := by
  refine ⟨rfl, rfl, rfl, rfl⟩

/-- C6: `CalculateProteinStatus` returns `max 0 (target - consumed)` as the
remaining grams (hence never negative), and is on track iff
`consumed ≥ 0.95 * target`; at consumed 144.4 / target 152 it is on track
with 7.6 g remaining, and at consumed 0 it reports 152 g remaining, off
track. -/
theorem proteinStatus_spec :
    (∀ consumed target : ℚ,
      (CalculateProteinStatus consumed target).1 = max 0 (target - consumed) ∧
      0 ≤ (CalculateProteinStatus consumed target).1 ∧
      ((CalculateProteinStatus consumed target).2 = true ↔
        consumed ≥ (95/100) * target)) ∧
    CalculateProteinStatus (722/5) 152 = (38/5, true) ∧
    CalculateProteinStatus 0 152 = (152, false) := by
  refine ⟨fun consumed target => ?_,
    by norm_num [CalculateProteinStatus, Prod.ext_iff],
    by norm_num [CalculateProteinStatus, Prod.ext_iff]⟩
  unfold CalculateProteinStatus
  constructor
  · dsimp only
    rcases le_or_lt 0 (target - consumed) with h | h
    · rw [if_neg (not_lt.mpr h), max_eq_right h]
    · rw [if_pos h, max_eq_left h.le]
  constructor
  · dsimp only
    split
    · exact le_refl 0
    · next h => exact le_of_not_lt h
  · dsimp only
    constructor
    · intro h
      have := of_decide_eq_true h
      linarith [this]
    · intro h
      exact decide_eq_true (by linarith)

/-- C5 counterexample: at bmr 1636, active 611, consumed 1850.4 the true
difference is −396.6; the source computes `int(-396.6 + 0.5) = -396`
(Go truncation toward zero), while round-half-up of −396.6 is −397, so
the balance is not the round-half-up of the difference for this negative
balance. -/
theorem energyBalance_roundHalfUp_counterexample :
    (CalculateEnergyBalance 1636 611 (9252/5)).1 = -396 ∧
    specRoundHalfUp ((9252/5 : ℚ) - ((1636 : ℚ) + 611)) = -397 ∧
    (CalculateEnergyBalance 1636 611 (9252/5)).1 ≠
      specRoundHalfUp ((9252/5 : ℚ) - ((1636 : ℚ) + 611)) := by
  have h1 : (CalculateEnergyBalance 1636 611 (9252/5)).1 = -396 := by
    show goTruncToInt ((9252/5 : ℚ) - ((1636 : ℚ) + 611) + 1/2) = -396
    unfold goTruncToInt
    rw [if_neg (by norm_num)]
    rw [Int.ceil_eq_iff]
    constructor <;> norm_num
  have h2 : specRoundHalfUp ((9252/5 : ℚ) - ((1636 : ℚ) + 611)) = -397 := by
    unfold specRoundHalfUp
    rw [Int.floor_eq_iff]
    constructor <;> norm_num
  exact ⟨h1, h2, by rw [h1, h2]; decide⟩

/-- C5 amended: the balance is `int(consumed - (bmr + active) + 0.5)` with
Go truncation toward zero, which agrees with round-half-up whenever the
difference is non-negative (for negative differences it can differ, as the
counterexample shows); the status is "deficit" iff balance < −50,
"surplus" iff balance > 50, and "maintenance" otherwise. -/
theorem energyBalance_amended (bmr : Int) (activeEnergy consumedEnergy : ℚ) :
    (CalculateEnergyBalance bmr activeEnergy consumedEnergy).1 =
      goTruncToInt (consumedEnergy - ((bmr : ℚ) + activeEnergy) + 1/2) ∧
    (0 ≤ consumedEnergy - ((bmr : ℚ) + activeEnergy) →
      (CalculateEnergyBalance bmr activeEnergy consumedEnergy).1 =
        specRoundHalfUp (consumedEnergy - ((bmr : ℚ) + activeEnergy))) ∧
    ((CalculateEnergyBalance bmr activeEnergy consumedEnergy).2 = "deficit" ↔
      (CalculateEnergyBalance bmr activeEnergy consumedEnergy).1 < -50) ∧
    ((CalculateEnergyBalance bmr activeEnergy consumedEnergy).2 = "surplus" ↔
      (CalculateEnergyBalance bmr activeEnergy consumedEnergy).1 > 50) ∧
    ((CalculateEnergyBalance bmr activeEnergy consumedEnergy).2 = "maintenance" ↔
      -50 ≤ (CalculateEnergyBalance bmr activeEnergy consumedEnergy).1 ∧
        (CalculateEnergyBalance bmr activeEnergy consumedEnergy).1 ≤ 50) := by
  have hfst : (CalculateEnergyBalance bmr activeEnergy consumedEnergy).1 =
      goTruncToInt (consumedEnergy - ((bmr : ℚ) + activeEnergy) + 1/2) := rfl
  have hsnd : (CalculateEnergyBalance bmr activeEnergy consumedEnergy).2 =
      (if goTruncToInt (consumedEnergy - ((bmr : ℚ) + activeEnergy) + 1/2) < -50
        then "deficit"
        else if goTruncToInt (consumedEnergy - ((bmr : ℚ) + activeEnergy) + 1/2) > 50
        then "surplus" else "maintenance") := rfl
  rw [hfst, hsnd]
  set n : Int := goTruncToInt (consumedEnergy - ((bmr : ℚ) + activeEnergy) + 1/2) with hn
  refine ⟨rfl, ?_, ?_, ?_, ?_⟩
  · intro h
    rw [hn]
    unfold goTruncToInt specRoundHalfUp
    rw [if_pos (by linarith)]
  · by_cases h1 : n < -50
    · simp only [if_pos h1]
      exact ⟨fun _ => h1, fun _ => trivial⟩
    · by_cases h2 : n > 50
      · simp only [if_neg h1, if_pos h2]
        exact ⟨fun hcon => absurd hcon (by decide), fun hcon => absurd hcon h1⟩
      · simp only [if_neg h1, if_neg h2]
        exact ⟨fun hcon => absurd hcon (by decide), fun hcon => absurd hcon h1⟩
  · by_cases h1 : n < -50
    · simp only [if_pos h1]
      exact ⟨fun hcon => absurd hcon (by decide), fun hcon => by omega⟩
    · by_cases h2 : n > 50
      · simp only [if_neg h1, if_pos h2]
        exact ⟨fun _ => h2, fun _ => trivial⟩
      · simp only [if_neg h1, if_neg h2]
        exact ⟨fun hcon => absurd hcon (by decide), fun hcon => absurd hcon h2⟩
  · by_cases h1 : n < -50
    · simp only [if_pos h1]
      exact ⟨fun hcon => absurd hcon (by decide), fun hcon => by omega⟩
    · by_cases h2 : n > 50
      · simp only [if_neg h1, if_pos h2]
        exact ⟨fun hcon => absurd hcon (by decide), fun hcon => by omega⟩
      · simp only [if_neg h1, if_neg h2]
        exact ⟨fun _ => by omega, fun _ => trivial⟩

/-- Witness for the C5 amended theorem at bmr 1636, active 400,
consumed 2500 (difference 464, non-negative). -/
theorem energyBalance_amended_witness :
    (0 ≤ (2500 : ℚ) - ((1636 : ℚ) + 400) ∧
      (CalculateEnergyBalance 1636 400 2500).1 =
        specRoundHalfUp ((2500 : ℚ) - ((1636 : ℚ) + 400))) ∧
    ((CalculateEnergyBalance 1636 400 2500).2 = "surplus" ↔
      (CalculateEnergyBalance 1636 400 2500).1 > 50) :=
  ⟨⟨by norm_num, (energyBalance_amended 1636 400 2500).2.1 (by norm_num)⟩,
    (energyBalance_amended 1636 400 2500).2.2.2.1⟩

/-- Characterization of the meds loop: each bucket receives exactly the
mapped image of the tasks satisfying its predicate, appended in order. -/
theorem addMedTasks_eq (today : String) (tasks : List TodoistTask) :
    ∀ m : MedsData, addMedTasks today m tasks =
      { DueToday := m.DueToday ++ (tasks.filter (fun t =>
          isMedLabelled t.Labels && !t.IsCompleted && !(isOverdueTask t today))).map mkMedTask
        Overdue := m.Overdue ++ (tasks.filter (fun t =>
          isMedLabelled t.Labels && !t.IsCompleted && isOverdueTask t today)).map mkMedTask
        Completed := m.Completed ++ (tasks.filter (fun t =>
          isMedLabelled t.Labels && t.IsCompleted)).map mkMedTask } := by
  induction tasks with
  | nil => intro m; simp [addMedTasks]
  | cons t rest ih =>
    intro m
    show addMedTasks today (bucketMedTask m today t) rest = _
    rw [ih]
    by_cases hmed : isMedLabelled t.Labels
    · by_cases hcomp : t.IsCompleted
      · have hpDT : (isMedLabelled t.Labels && !t.IsCompleted && !(isOverdueTask t today)) = false := by
          simp [hmed, hcomp]
        have hpOD : (isMedLabelled t.Labels && !t.IsCompleted && isOverdueTask t today) = false := by
          simp [hmed, hcomp]
        have hpC : (isMedLabelled t.Labels && t.IsCompleted) = true := by
          simp [hmed, hcomp]
        simp [bucketMedTask, hmed, hcomp, List.filter_cons, hpDT, hpOD, hpC]
      · cases hdue : t.Due with
        | none =>
          have hov : isOverdueTask t today = false := by simp [isOverdueTask, hdue]
          have hpDT : (isMedLabelled t.Labels && !t.IsCompleted && !(isOverdueTask t today)) = true := by
            simp [hmed, hcomp, hov]
          have hpOD : (isMedLabelled t.Labels && !t.IsCompleted && isOverdueTask t today) = false := by
            simp [hov]
          have hpC : (isMedLabelled t.Labels && t.IsCompleted) = false := by
            simp [hcomp]
          simp [bucketMedTask, hmed, hcomp, hdue, List.filter_cons, hpDT, hpOD, hpC, hov]
        | some due =>
          by_cases hlt : due.Date < today
          · have hov : isOverdueTask t today = true := by
              simp [isOverdueTask, hdue, hlt]
            have hpDT : (isMedLabelled t.Labels && !t.IsCompleted && !(isOverdueTask t today)) = false := by
              simp [hov]
            have hpOD : (isMedLabelled t.Labels && !t.IsCompleted && isOverdueTask t today) = true := by
              simp [hmed, hcomp, hov]
            have hpC : (isMedLabelled t.Labels && t.IsCompleted) = false := by
              simp [hcomp]
            simp [bucketMedTask, hmed, hcomp, hdue, hlt, List.filter_cons, hpDT, hpOD, hpC, hov]
          · have hov : isOverdueTask t today = false := by
              simp [isOverdueTask, hdue, hlt]
            have hpDT : (isMedLabelled t.Labels && !t.IsCompleted && !(isOverdueTask t today)) = true := by
              simp [hmed, hcomp, hov]
            have hpOD : (isMedLabelled t.Labels && !t.IsCompleted && isOverdueTask t today) = false := by
              simp [hov]
            have hpC : (isMedLabelled t.Labels && t.IsCompleted) = false := by
              simp [hcomp]
            simp [bucketMedTask, hmed, hcomp, hdue, hlt, List.filter_cons, hpDT, hpOD, hpC, hov]
    · have hpDT : (isMedLabelled t.Labels && !t.IsCompleted && !(isOverdueTask t today)) = false := by
        simp [hmed]
      have hpOD : (isMedLabelled t.Labels && !t.IsCompleted && isOverdueTask t today) = false := by
        simp [hmed]
      have hpC : (isMedLabelled t.Labels && t.IsCompleted) = false := by
        simp [hmed]
      simp [bucketMedTask, hmed, List.filter_cons, hpDT, hpOD, hpC]

/-- C10: in the meds pipeline, an uncompleted med-labelled task with no
due object at all lands in the due-today bucket with an empty due date;
and every record in the overdue bucket either was there before or comes
from an uncompleted med-labelled task whose due date is byte-wise before
the target date. -/
theorem medsBucketing_spec (b : MorningBriefing) (today : String)
    (tasks : List TodoistTask) :
    (∀ task ∈ tasks, isMedLabelled task.Labels = true → task.IsCompleted = false →
      task.Due = none →
      ({ Name := task.Content, DueTime := "", DueDate := "" } : MedTask) ∈
        (getMedsData b today (.ok ⟨tasks⟩)).Meds.DueToday) ∧
    (∀ x ∈ (getMedsData b today (.ok ⟨tasks⟩)).Meds.Overdue,
      x ∈ b.Meds.Overdue ∨ ∃ task, task ∈ tasks ∧ isMedLabelled task.Labels = true ∧
        task.IsCompleted = false ∧ ∃ due, task.Due = some due ∧ due.Date < today ∧
        x = mkMedTask task) := by
  have hmeds : (getMedsData b today (.ok ⟨tasks⟩)).Meds = addMedTasks today b.Meds tasks := rfl
  constructor
  · intro task htask hmed hcomp hdue
    rw [hmeds, addMedTasks_eq]
    refine List.mem_append_right _ ?_
    refine List.mem_map.mpr ⟨task, ?_, ?_⟩
    · refine List.mem_filter.mpr ⟨htask, ?_⟩
      simp [hmed, hcomp, isOverdueTask, hdue]
    · simp [mkMedTask, hdue]
  · intro x hx
    rw [hmeds, addMedTasks_eq] at hx
    rcases List.mem_append.mp hx with hold | hnew
    · exact Or.inl hold
    · right
      rcases List.mem_map.mp hnew with ⟨task, htask, hx'⟩
      have hcond := (List.mem_filter.mp htask).2
      have htmem := (List.mem_filter.mp htask).1
      simp only [Bool.and_eq_true, Bool.not_eq_true'] at hcond
      obtain ⟨⟨hmed, hcomp⟩, hover⟩ := hcond
      refine ⟨task, htmem, hmed, hcomp, ?_⟩
      unfold isOverdueTask at hover
      cases hdue : task.Due with
      | none => rw [hdue] at hover; exact absurd hover (by simp)
      | some due =>
        rw [hdue] at hover
        exact ⟨due, rfl, of_decide_eq_true hover, hx'.symm⟩

/-- Witness for C10: a due-less med task lands in due-today; a
med task due 2026-03-10 (before 2026-03-14) explains the single overdue
record. -/
theorem medsBucketing_spec_witness :
    ({ Name := "Vitamin D", DueTime := "", DueDate := "" } : MedTask) ∈
      (getMedsData (testBriefing ⟨none, none, none, none, "", false, false⟩
          ⟨none, none, none, none⟩ 0) "2026-03-14"
        (.ok ⟨[⟨"Vitamin D", ["💊Meds"], false, none⟩,
               ⟨"Insulin", ["💉"], false, some ⟨"2026-03-10", ""⟩⟩]⟩)).Meds.DueToday ∧
    (({ Name := "Insulin", DueTime := "", DueDate := "2026-03-10" } : MedTask) ∈
        (testBriefing ⟨none, none, none, none, "", false, false⟩
          ⟨none, none, none, none⟩ 0).Meds.Overdue ∨
      ∃ task, task ∈ [(⟨"Vitamin D", ["💊Meds"], false, none⟩ : TodoistTask),
          ⟨"Insulin", ["💉"], false, some ⟨"2026-03-10", ""⟩⟩] ∧
        isMedLabelled task.Labels = true ∧ task.IsCompleted = false ∧
        ∃ due, task.Due = some due ∧ due.Date < "2026-03-14" ∧
        ({ Name := "Insulin", DueTime := "", DueDate := "2026-03-10" } : MedTask) =
          mkMedTask task) := by
  constructor
  · exact (medsBucketing_spec _ "2026-03-14" _).1
      ⟨"Vitamin D", ["💊Meds"], false, none⟩ (by simp) rfl rfl rfl
  · have hx : ({ Name := "Insulin", DueTime := "", DueDate := "2026-03-10" } : MedTask) ∈
        (getMedsData (testBriefing ⟨none, none, none, none, "", false, false⟩
            ⟨none, none, none, none⟩ 0) "2026-03-14"
          (.ok ⟨[⟨"Vitamin D", ["💊Meds"], false, none⟩,
                 ⟨"Insulin", ["💉"], false, some ⟨"2026-03-10", ""⟩⟩]⟩)).Meds.Overdue := by
      show _ ∈ (addMedTasks "2026-03-14" _ _).Overdue
      rw [addMedTasks_eq]
      refine List.mem_append_right _ ?_
      refine List.mem_map.mpr
        ⟨⟨"Insulin", ["💉"], false, some ⟨"2026-03-10", ""⟩⟩, ?_, rfl⟩
      refine List.mem_filter.mpr ⟨by simp, ?_⟩
      simp only [isMedLabelled, isOverdueTask, Bool.and_eq_true, List.any_eq_true]
      refine ⟨⟨⟨"💉", by simp, by simp⟩, by simp⟩, ?_⟩
      simp only [decide_eq_true_eq]
      simp
      decide
    exact (medsBucketing_spec (testBriefing ⟨none, none, none, none, "", false, false⟩
        ⟨none, none, none, none⟩ 0) "2026-03-14" _).2
      { Name := "Insulin", DueTime := "", DueDate := "2026-03-10" } hx

/-- Frame of the summary stage: it only writes sleep/vitals fields and
warnings. -/
theorem getHealthData_frame (b : MorningBriefing) (today : String)
    (r : FetchResult HealthSummary) :
    (getHealthData b today r).Calendar = b.Calendar ∧
    (getHealthData b today r).Meds = b.Meds ∧
    (getHealthData b today r).Training = b.Training ∧
    (getHealthData b today r).Classif = b.Classif ∧
    (getHealthData b today r).GeneratedAt = b.GeneratedAt ∧
    (getHealthData b today r).TargetDate = b.TargetDate := by
  cases r <;> simp only [getHealthData] <;> repeat' split
  all_goals simp

/-- Warning contribution of the summary stage. -/
theorem getHealthData_Errors (b : MorningBriefing) (today : String)
    (r : FetchResult HealthSummary) :
    (getHealthData b today r).Errors =
      b.Errors ++ fetchWarnings "health-ingest error: " "health JSON parse error: " r := by
  cases r <;> simp only [getHealthData, fetchWarnings] <;> repeat' split
  all_goals simp

/-- Frame of the SQLite stage: it only overwrites HRV, the sleep stages,
the respiratory rate and warnings. -/
theorem sqlite_frame (b : MorningBriefing) (today : String) (r : DBResult) :
    (getHealthDataFromSQLite b today r).Calendar = b.Calendar ∧
    (getHealthDataFromSQLite b today r).Meds = b.Meds ∧
    (getHealthDataFromSQLite b today r).Training = b.Training ∧
    (getHealthDataFromSQLite b today r).Classif = b.Classif ∧
    (getHealthDataFromSQLite b today r).GeneratedAt = b.GeneratedAt ∧
    (getHealthDataFromSQLite b today r).TargetDate = b.TargetDate ∧
    (getHealthDataFromSQLite b today r).Sleep.TotalHours = b.Sleep.TotalHours ∧
    (getHealthDataFromSQLite b today r).Sleep.DataAvailable = b.Sleep.DataAvailable ∧
    (getHealthDataFromSQLite b today r).Sleep.IsCurrentDay = b.Sleep.IsCurrentDay ∧
    (getHealthDataFromSQLite b today r).Sleep.DataDate = b.Sleep.DataDate ∧
    (getHealthDataFromSQLite b today r).Vitals.RestingHR = b.Vitals.RestingHR ∧
    (getHealthDataFromSQLite b today r).Vitals.SpO2 = b.Vitals.SpO2 := by
  cases r <;> simp only [getHealthDataFromSQLite] <;> repeat' split
  all_goals simp

/-- Warning contribution of the SQLite stage. -/
theorem sqlite_Errors (b : MorningBriefing) (today : String) (r : DBResult) :
    (getHealthDataFromSQLite b today r).Errors = b.Errors ++ dbWarnings r := by
  cases r <;> simp only [getHealthDataFromSQLite, dbWarnings] <;> repeat' split
  all_goals simp

/-- Merged values of the SQLite stage: each metrics-store value, when
present, is the field's final value; otherwise the prior (summary) value
stays. -/
theorem sqlite_values (b : MorningBriefing) (today : String) (rows : List MetricRow) :
    (getHealthDataFromSQLite b today (.ok rows)).Vitals.HRV =
      (queryAverageHRV rows today).or b.Vitals.HRV ∧
    (getHealthDataFromSQLite b today (.ok rows)).Sleep.DeepHours =
      (querySleepStages rows today).1.or b.Sleep.DeepHours ∧
    (getHealthDataFromSQLite b today (.ok rows)).Sleep.REMHours =
      (querySleepStages rows today).2.1.or b.Sleep.REMHours ∧
    (getHealthDataFromSQLite b today (.ok rows)).Sleep.CoreHours =
      (querySleepStages rows today).2.2.or b.Sleep.CoreHours ∧
    (getHealthDataFromSQLite b today (.ok rows)).Vitals.RespiratoryRate =
      (queryLatestRespiratoryRate rows today).or b.Vitals.RespiratoryRate := by
  simp only [getHealthDataFromSQLite] <;> repeat' split
  all_goals simp_all [Option.or]

/-- Frame of the calendar stage: it only writes calendar fields and
warnings. -/
theorem getCalendarData_frame (b : MorningBriefing) (today : String)
    (r1 r2 : FetchResult GogCalendarResponse) :
    (getCalendarData b today r1 r2).Sleep = b.Sleep ∧
    (getCalendarData b today r1 r2).Vitals = b.Vitals ∧
    (getCalendarData b today r1 r2).Meds = b.Meds ∧
    (getCalendarData b today r1 r2).Training = b.Training ∧
    (getCalendarData b today r1 r2).Classif = b.Classif ∧
    (getCalendarData b today r1 r2).GeneratedAt = b.GeneratedAt ∧
    (getCalendarData b today r1 r2).TargetDate = b.TargetDate := by
  cases r1 <;> cases r2 <;>
    simp only [getCalendarData, getCalendarEvents] <;> repeat' split
  all_goals simp

/-- Warning contribution of the calendar stage (both accounts). -/
theorem getCalendarData_Errors (b : MorningBriefing) (today : String)
    (r1 r2 : FetchResult GogCalendarResponse) :
    (getCalendarData b today r1 r2).Errors =
      b.Errors ++
        fetchWarnings "calendar error (personal): " "calendar JSON parse error (personal): " r1 ++
        fetchWarnings "calendar error (work): " "calendar JSON parse error (work): " r2 := by
  cases r1 <;> cases r2 <;>
    simp only [getCalendarData, getCalendarEvents, fetchWarnings] <;> repeat' split
  all_goals simp

/-- The calendar stage's calendar record depends only on the prior
calendar record and the two outcomes, not on any other field of the
briefing. -/
theorem getCalendarData_Calendar_congr (b bAlt : MorningBriefing) (today : String)
    (r1 r2 : FetchResult GogCalendarResponse) (h : b.Calendar = bAlt.Calendar) :
    (getCalendarData b today r1 r2).Calendar =
      (getCalendarData bAlt today r1 r2).Calendar := by
  cases r1 <;> cases r2 <;>
    simp only [getCalendarData, getCalendarEvents] <;> rw [h] <;> repeat' split
  all_goals simp_all

/-- Frame of the meds stage. -/
theorem getMedsData_frame (b : MorningBriefing) (today : String)
    (r : FetchResult TodoistResponse) :
    (getMedsData b today r).Sleep = b.Sleep ∧
    (getMedsData b today r).Vitals = b.Vitals ∧
    (getMedsData b today r).Calendar = b.Calendar ∧
    (getMedsData b today r).Training = b.Training ∧
    (getMedsData b today r).Classif = b.Classif ∧
    (getMedsData b today r).GeneratedAt = b.GeneratedAt ∧
    (getMedsData b today r).TargetDate = b.TargetDate := by
  cases r <;> simp [getMedsData]

/-- Warning contribution and meds value of the meds stage. -/
theorem getMedsData_Errors (b : MorningBriefing) (today : String)
    (r : FetchResult TodoistResponse) :
    (getMedsData b today r).Errors =
      b.Errors ++ fetchWarnings "todoist error: " "todoist JSON parse error: " r ∧
    (getMedsData b today r).Meds =
      (match r with
        | .ok resp => addMedTasks today b.Meds resp.Results
        | _ => b.Meds) := by
  cases r <;> simp [getMedsData, fetchWarnings]

/-- Frame of the training stage. -/
theorem getTrainingData_frame (b : MorningBriefing) (now : GoTime)
    (r : FetchResult (List HevyWorkout)) :
    (getTrainingData b now r).Sleep = b.Sleep ∧
    (getTrainingData b now r).Vitals = b.Vitals ∧
    (getTrainingData b now r).Calendar = b.Calendar ∧
    (getTrainingData b now r).Meds = b.Meds ∧
    (getTrainingData b now r).Classif = b.Classif ∧
    (getTrainingData b now r).GeneratedAt = b.GeneratedAt ∧
    (getTrainingData b now r).TargetDate = b.TargetDate := by
  cases r <;> simp only [getTrainingData] <;> repeat' split
  all_goals simp

/-- Warning contribution and training value of the training stage. -/
theorem getTrainingData_Errors (b : MorningBriefing) (now : GoTime)
    (r : FetchResult (List HevyWorkout)) :
    (getTrainingData b now r).Errors =
      b.Errors ++ fetchWarnings "hevy error: " "hevy JSON parse error: " r ∧
    (getTrainingData b now r).Training =
      (match r with
        | .ok workouts =>
          if workouts.isEmpty then b.Training
          else addWorkouts ({ b.Training with WeeklyCount := 0 }) now 0 workouts
        | _ => b.Training) := by
  cases r <;> simp only [getTrainingData, fetchWarnings] <;> repeat' split
  all_goals simp_all

/-- Frame of `classify`: only the classification record changes. -/
theorem classify_frame (b : MorningBriefing) :
    (classify b).Sleep = b.Sleep ∧
    (classify b).Vitals = b.Vitals ∧
    (classify b).Calendar = b.Calendar ∧
    (classify b).Meds = b.Meds ∧
    (classify b).Training = b.Training ∧
    (classify b).Errors = b.Errors ∧
    (classify b).GeneratedAt = b.GeneratedAt ∧
    (classify b).TargetDate = b.TargetDate :=
  ⟨rfl, rfl, rfl, rfl, rfl, rfl, rfl, rfl⟩

/-- Values the summary stage writes on success: each present summary
entry becomes the field's value, otherwise the prior value stays; the
respiratory rate and core hours are never written by this stage. -/
theorem getHealthData_values (b : MorningBriefing) (today : String) (s : HealthSummary) :
    (getHealthData b today (.ok s)).Vitals.HRV =
      ((lookupStat s "heart_rate_variability").map StatEntry.Value).or b.Vitals.HRV ∧
    (getHealthData b today (.ok s)).Sleep.DeepHours =
      ((lookupStat s "sleep_deep").map StatEntry.Value).or b.Sleep.DeepHours ∧
    (getHealthData b today (.ok s)).Sleep.REMHours =
      ((lookupStat s "sleep_rem").map StatEntry.Value).or b.Sleep.REMHours ∧
    (getHealthData b today (.ok s)).Sleep.TotalHours =
      ((lookupStat s "sleep_total").map StatEntry.Value).or b.Sleep.TotalHours ∧
    (getHealthData b today (.ok s)).Vitals.RespiratoryRate = b.Vitals.RespiratoryRate ∧
    (getHealthData b today (.ok s)).Sleep.CoreHours = b.Sleep.CoreHours := by
  simp only [getHealthData]
  repeat' split
  all_goals simp_all [Option.or]

/-- The morning pipeline's sleep and vitals records are exactly what the
two health stages produce; the later stages do not touch them. -/
theorem pipeline_SleepVitals (now : GoTime) (rH : FetchResult HealthSummary)
    (rDB : DBResult) (rc1 rc2 : FetchResult GogCalendarResponse)
    (rM : FetchResult TodoistResponse) (rHevy : FetchResult (List HevyWorkout)) :
    (morningPipeline now rH rDB rc1 rc2 rM rHevy).Sleep =
      (getHealthDataFromSQLite (getHealthData (initialMorningBriefing now)
        (goFormatDate now) rH) (goFormatDate now) rDB).Sleep ∧
    (morningPipeline now rH rDB rc1 rc2 rM rHevy).Vitals =
      (getHealthDataFromSQLite (getHealthData (initialMorningBriefing now)
        (goFormatDate now) rH) (goFormatDate now) rDB).Vitals := by
  constructor
  · show (classify _).Sleep = _
    rw [(classify_frame _).1, (getTrainingData_frame _ _ _).1,
      (getMedsData_frame _ _ _).1, (getCalendarData_frame _ _ _ _).1]
  · show (classify _).Vitals = _
    rw [(classify_frame _).2.1, (getTrainingData_frame _ _ _).2.1,
      (getMedsData_frame _ _ _).2.1, (getCalendarData_frame _ _ _ _).2.1]

/-- The morning pipeline's meds record is exactly what the meds stage
produces from its own outcome, starting from the empty buckets. -/
theorem pipeline_Meds (now : GoTime) (rH : FetchResult HealthSummary)
    (rDB : DBResult) (rc1 rc2 : FetchResult GogCalendarResponse)
    (rM : FetchResult TodoistResponse) (rHevy : FetchResult (List HevyWorkout)) :
    (morningPipeline now rH rDB rc1 rc2 rM rHevy).Meds =
      (match rM with
        | .ok resp => addMedTasks (goFormatDate now) ⟨[], [], []⟩ resp.Results
        | _ => ⟨[], [], []⟩) := by
  show (classify _).Meds = _
  rw [(classify_frame _).2.2.2.1, (getTrainingData_frame _ _ _).2.2.2.1,
    (getMedsData_Errors _ _ _).2, (getCalendarData_frame _ _ _ _).2.2.1,
    (sqlite_frame _ _ _).2.1, (getHealthData_frame _ _ _).2.1]
  rfl

/-- The morning pipeline's training record is exactly what the training
stage produces from its own outcome, starting from the zero record. -/
theorem pipeline_Training (now : GoTime) (rH : FetchResult HealthSummary)
    (rDB : DBResult) (rc1 rc2 : FetchResult GogCalendarResponse)
    (rM : FetchResult TodoistResponse) (rHevy : FetchResult (List HevyWorkout)) :
    (morningPipeline now rH rDB rc1 rc2 rM rHevy).Training =
      (match rHevy with
        | .ok workouts =>
          if workouts.isEmpty then (⟨none, 0, [], 0⟩ : TrainingData)
          else addWorkouts (⟨none, 0, [], 0⟩ : TrainingData) now 0 workouts
        | _ => (⟨none, 0, [], 0⟩ : TrainingData)) := by
  show (classify _).Training = _
  rw [(classify_frame _).2.2.2.2.1, (getTrainingData_Errors _ _ _).2,
    (getMedsData_frame _ _ _).2.2.2.1, (getCalendarData_frame _ _ _ _).2.2.2.1,
    (sqlite_frame _ _ _).2.2.1, (getHealthData_frame _ _ _).2.2.1]
  rfl

/-- The morning pipeline's warnings are the concatenation of the six
stages' contributions, in stage order. -/
theorem pipeline_Errors (now : GoTime) (rH : FetchResult HealthSummary)
    (rDB : DBResult) (rc1 rc2 : FetchResult GogCalendarResponse)
    (rM : FetchResult TodoistResponse) (rHevy : FetchResult (List HevyWorkout)) :
    (morningPipeline now rH rDB rc1 rc2 rM rHevy).Errors =
      fetchWarnings "health-ingest error: " "health JSON parse error: " rH ++
      dbWarnings rDB ++
      fetchWarnings "calendar error (personal): " "calendar JSON parse error (personal): " rc1 ++
      fetchWarnings "calendar error (work): " "calendar JSON parse error (work): " rc2 ++
      fetchWarnings "todoist error: " "todoist JSON parse error: " rM ++
      fetchWarnings "hevy error: " "hevy JSON parse error: " rHevy := by
  show (classify _).Errors = _
  rw [(classify_frame _).2.2.2.2.2.1, (getTrainingData_Errors _ _ _).1,
    (getMedsData_Errors _ _ _).1, getCalendarData_Errors, sqlite_Errors,
    getHealthData_Errors]
  simp [initialMorningBriefing]

/-- Right identity of `Option.or` (shared helper). -/
theorem option_or_none {α : Type} (o : Option α) : o.or none = o := by
  cases o <;> rfl

/-- C4: for the overlapping fields (HRV, deep/REM sleep-stage hours,
respiratory rate), a present metrics-store value is the one in the final
report; an absent metrics-store value leaves the summary-provider value
in place (for the respiratory rate, which the summary stage never
writes, the field then stays empty). -/
theorem mergePrecedence_spec (now : GoTime) (hs : HealthSummary)
    (rows : List MetricRow) (rc1 rc2 : FetchResult GogCalendarResponse)
    (rM : FetchResult TodoistResponse) (rHevy : FetchResult (List HevyWorkout)) :
    (∀ v : ℚ, queryAverageHRV rows (goFormatDate now) = some v →
      (morningPipeline now (.ok hs) (.ok rows) rc1 rc2 rM rHevy).Vitals.HRV = some v) ∧
    (queryAverageHRV rows (goFormatDate now) = none →
      (morningPipeline now (.ok hs) (.ok rows) rc1 rc2 rM rHevy).Vitals.HRV =
        (lookupStat hs "heart_rate_variability").map StatEntry.Value) ∧
    (∀ v : ℚ, (querySleepStages rows (goFormatDate now)).1 = some v →
      (morningPipeline now (.ok hs) (.ok rows) rc1 rc2 rM rHevy).Sleep.DeepHours = some v) ∧
    ((querySleepStages rows (goFormatDate now)).1 = none →
      (morningPipeline now (.ok hs) (.ok rows) rc1 rc2 rM rHevy).Sleep.DeepHours =
        (lookupStat hs "sleep_deep").map StatEntry.Value) ∧
    (∀ v : ℚ, (querySleepStages rows (goFormatDate now)).2.1 = some v →
      (morningPipeline now (.ok hs) (.ok rows) rc1 rc2 rM rHevy).Sleep.REMHours = some v) ∧
    ((querySleepStages rows (goFormatDate now)).2.1 = none →
      (morningPipeline now (.ok hs) (.ok rows) rc1 rc2 rM rHevy).Sleep.REMHours =
        (lookupStat hs "sleep_rem").map StatEntry.Value) ∧
    (∀ v : ℚ, queryLatestRespiratoryRate rows (goFormatDate now) = some v →
      (morningPipeline now (.ok hs) (.ok rows) rc1 rc2 rM rHevy).Vitals.RespiratoryRate =
        some v) ∧
    (queryLatestRespiratoryRate rows (goFormatDate now) = none →
      (morningPipeline now (.ok hs) (.ok rows) rc1 rc2 rM rHevy).Vitals.RespiratoryRate =
        none) := by
  have hSV := pipeline_SleepVitals now (.ok hs) (.ok rows) rc1 rc2 rM rHevy
  have hsq := sqlite_values (getHealthData (initialMorningBriefing now)
    (goFormatDate now) (.ok hs)) (goFormatDate now) rows
  have hsum := getHealthData_values (initialMorningBriefing now) (goFormatDate now) hs
  have hV := congrArg VitalsData.HRV hSV.2
  have hRR := congrArg VitalsData.RespiratoryRate hSV.2
  have hD := congrArg SleepData.DeepHours hSV.1
  have hR := congrArg SleepData.REMHours hSV.1
  refine ⟨?_, ?_, ?_, ?_, ?_, ?_, ?_, ?_⟩
  · intro v hv
    rw [hV, hsq.1, hv]
    rfl
  · intro hv
    rw [hV, hsq.1, hv]
    show (getHealthData _ _ _).Vitals.HRV = _
    rw [hsum.1]
    rw [show (initialMorningBriefing now).Vitals.HRV = none from rfl, option_or_none]
  · intro v hv
    rw [hD, hsq.2.1, hv]
    rfl
  · intro hv
    rw [hD, hsq.2.1, hv]
    show (getHealthData _ _ _).Sleep.DeepHours = _
    rw [hsum.2.1]
    rw [show (initialMorningBriefing now).Sleep.DeepHours = none from rfl, option_or_none]
  · intro v hv
    rw [hR, hsq.2.2.1, hv]
    rfl
  · intro hv
    rw [hR, hsq.2.2.1, hv]
    show (getHealthData _ _ _).Sleep.REMHours = _
    rw [hsum.2.2.1]
    rw [show (initialMorningBriefing now).Sleep.REMHours = none from rfl, option_or_none]
  · intro v hv
    rw [hRR, hsq.2.2.2.2, hv]
    rfl
  · intro hv
    rw [hRR, hsq.2.2.2.2, hv]
    show (getHealthData _ _ _).Vitals.RespiratoryRate = _
    rw [hsum.2.2.2.2.1]
    rfl

/-- Witness for C4 on 2026-03-14: both providers report HRV (summary 48,
metrics-store average 55) and the final report carries 55; the
metrics-store has no deep-sleep row, so the summary's 1.5 h stays. -/
theorem mergePrecedence_spec_witness :
    (queryAverageHRV [⟨"heart_rate_variability", "2026-03-14T06:00:00Z", 55⟩]
        "2026-03-14" = some 55 ∧
      (morningPipeline ⟨2026, 3, 14, 8, 0, 0, 0⟩
        (.ok ⟨[("heart_rate_variability", ⟨48, "ms", "2026-03-14T05:00:00Z"⟩),
               ("sleep_deep", ⟨3/2, "hr", "2026-03-14T05:00:00Z"⟩)]⟩)
        (.ok [⟨"heart_rate_variability", "2026-03-14T06:00:00Z", 55⟩])
        (.ok ⟨[]⟩) (.ok ⟨[]⟩) (.ok ⟨[]⟩) (.ok [])).Vitals.HRV = some 55) ∧
    ((querySleepStages [⟨"heart_rate_variability", "2026-03-14T06:00:00Z", 55⟩]
        "2026-03-14").1 = none ∧
      (morningPipeline ⟨2026, 3, 14, 8, 0, 0, 0⟩
        (.ok ⟨[("heart_rate_variability", ⟨48, "ms", "2026-03-14T05:00:00Z"⟩),
               ("sleep_deep", ⟨3/2, "hr", "2026-03-14T05:00:00Z"⟩)]⟩)
        (.ok [⟨"heart_rate_variability", "2026-03-14T06:00:00Z", 55⟩])
        (.ok ⟨[]⟩) (.ok ⟨[]⟩) (.ok ⟨[]⟩) (.ok [])).Sleep.DeepHours = some (3/2)) := by
  have hdate : goFormatDate ⟨2026, 3, 14, 8, 0, 0, 0⟩ = "2026-03-14" := rfl
  have hq : queryAverageHRV [⟨"heart_rate_variability", "2026-03-14T06:00:00Z", 55⟩]
      (goFormatDate ⟨2026, 3, 14, 8, 0, 0, 0⟩) = some 55 := by
    rw [hdate]
    norm_num [queryAverageHRV, tsMatches, goHasPrefix]
  have hq2 : (querySleepStages [⟨"heart_rate_variability", "2026-03-14T06:00:00Z", 55⟩]
      (goFormatDate ⟨2026, 3, 14, 8, 0, 0, 0⟩)).1 = none := by
    rw [hdate]
    norm_num [querySleepStages, goHasPrefix]
    rfl
  constructor
  · refine ⟨hq, ?_⟩
    exact (mergePrecedence_spec ⟨2026, 3, 14, 8, 0, 0, 0⟩
      ⟨[("heart_rate_variability", ⟨48, "ms", "2026-03-14T05:00:00Z"⟩),
        ("sleep_deep", ⟨3/2, "hr", "2026-03-14T05:00:00Z"⟩)]⟩
      [⟨"heart_rate_variability", "2026-03-14T06:00:00Z", 55⟩]
      (.ok ⟨[]⟩) (.ok ⟨[]⟩) (.ok ⟨[]⟩) (.ok [])).1 55 hq
  · refine ⟨hq2, ?_⟩
    have := (mergePrecedence_spec ⟨2026, 3, 14, 8, 0, 0, 0⟩
      ⟨[("heart_rate_variability", ⟨48, "ms", "2026-03-14T05:00:00Z"⟩),
        ("sleep_deep", ⟨3/2, "hr", "2026-03-14T05:00:00Z"⟩)]⟩
      [⟨"heart_rate_variability", "2026-03-14T06:00:00Z", 55⟩]
      (.ok ⟨[]⟩) (.ok ⟨[]⟩) (.ok ⟨[]⟩) (.ok [])).2.2.2.1 hq2
    rw [this]
    rfl

/-- A list is a Boolean prefix of itself followed by anything. -/
theorem isPrefixOf_append_self (l t : List Char) : l.isPrefixOf (l ++ t) = true := by
  induction l with
  | nil => cases t <;> rfl
  | cons c cs ih => simp [List.isPrefixOf, ih]

/-- The substring scan finds the needle at the very front. -/
theorem containsAux_append_self (l t : List Char) : containsAux l (l ++ t) = true := by
  cases l with
  | nil =>
    cases t with
    | nil => rfl
    | cons c r => rfl
  | cons c cs =>
    show containsAux (c :: cs) (c :: (cs ++ t)) = true
    unfold containsAux
    rw [show c :: (cs ++ t) = (c :: cs) ++ t from rfl, isPrefixOf_append_self]
    rfl

/-- Go `strings.Contains (s ++ t) s` always holds. -/
theorem goContains_self_append (s t : String) : goContains (s ++ t) s = true := by
  unfold goContains
  rw [show (s ++ t).toList = s.toList ++ t.toList from rfl]
  exact containsAux_append_self _ _

/-- The morning pipeline's calendar record is exactly what the calendar
stage produces from its two outcomes, starting from the empty record. -/
theorem pipeline_Calendar (now : GoTime) (rH : FetchResult HealthSummary)
    (rDB : DBResult) (rc1 rc2 : FetchResult GogCalendarResponse)
    (rM : FetchResult TodoistResponse) (rHevy : FetchResult (List HevyWorkout)) :
    (morningPipeline now rH rDB rc1 rc2 rM rHevy).Calendar =
      (getCalendarData (initialMorningBriefing now) (goFormatDate now) rc1 rc2).Calendar := by
  show (classify _).Calendar = _
  rw [(classify_frame _).2.2.1, (getTrainingData_frame _ _ _).2.2.1,
    (getMedsData_frame _ _ _).2.2.1]
  exact getCalendarData_Calendar_congr _ _ _ _ _
    (by rw [(sqlite_frame _ _ _).1, (getHealthData_frame _ _ _).1])

/-- C9: per-source failure isolation in the morning pipeline. For each
source, failing that one source (command failure, or for the calendar
also a malformed payload) leaves every other source's records exactly as
in the all-success run, and contributes exactly its own tagged warning;
the all-success run has no warnings, and the pipeline is a total
function, so no failure aborts it. In particular, when the personal
calendar query fails and everything else succeeds, sleep, vitals, meds
and training are populated as in the all-success run and exactly one
warning references "calendar". -/
theorem fetchIsolation_spec (now : GoTime) (hs : HealthSummary) (rows : List MetricRow)
    (calP calW : GogCalendarResponse) (meds : TodoistResponse)
    (hevy : List HevyWorkout) (e : String) :
    ((morningPipeline now (.cmdError e) (.ok rows) (.ok calP) (.ok calW) (.ok meds) (.ok hevy)).Calendar =
        (morningPipeline now (.ok hs) (.ok rows) (.ok calP) (.ok calW) (.ok meds) (.ok hevy)).Calendar ∧
      (morningPipeline now (.cmdError e) (.ok rows) (.ok calP) (.ok calW) (.ok meds) (.ok hevy)).Meds =
        (morningPipeline now (.ok hs) (.ok rows) (.ok calP) (.ok calW) (.ok meds) (.ok hevy)).Meds ∧
      (morningPipeline now (.cmdError e) (.ok rows) (.ok calP) (.ok calW) (.ok meds) (.ok hevy)).Training =
        (morningPipeline now (.ok hs) (.ok rows) (.ok calP) (.ok calW) (.ok meds) (.ok hevy)).Training ∧
      (morningPipeline now (.cmdError e) (.ok rows) (.ok calP) (.ok calW) (.ok meds) (.ok hevy)).Errors =
        ["health-ingest error: " ++ e]) ∧
    ((morningPipeline now (.ok hs) (.openError e) (.ok calP) (.ok calW) (.ok meds) (.ok hevy)).Sleep =
        (getHealthData (initialMorningBriefing now) (goFormatDate now) (.ok hs)).Sleep ∧
      (morningPipeline now (.ok hs) (.openError e) (.ok calP) (.ok calW) (.ok meds) (.ok hevy)).Vitals =
        (getHealthData (initialMorningBriefing now) (goFormatDate now) (.ok hs)).Vitals ∧
      (morningPipeline now (.ok hs) (.openError e) (.ok calP) (.ok calW) (.ok meds) (.ok hevy)).Calendar =
        (morningPipeline now (.ok hs) (.ok rows) (.ok calP) (.ok calW) (.ok meds) (.ok hevy)).Calendar ∧
      (morningPipeline now (.ok hs) (.openError e) (.ok calP) (.ok calW) (.ok meds) (.ok hevy)).Meds =
        (morningPipeline now (.ok hs) (.ok rows) (.ok calP) (.ok calW) (.ok meds) (.ok hevy)).Meds ∧
      (morningPipeline now (.ok hs) (.openError e) (.ok calP) (.ok calW) (.ok meds) (.ok hevy)).Training =
        (morningPipeline now (.ok hs) (.ok rows) (.ok calP) (.ok calW) (.ok meds) (.ok hevy)).Training ∧
      (morningPipeline now (.ok hs) (.openError e) (.ok calP) (.ok calW) (.ok meds) (.ok hevy)).Errors =
        ["sqlite open error: " ++ e]) ∧
    ((morningPipeline now (.ok hs) (.ok rows) (.cmdError e) (.ok calW) (.ok meds) (.ok hevy)).Sleep =
        (morningPipeline now (.ok hs) (.ok rows) (.ok calP) (.ok calW) (.ok meds) (.ok hevy)).Sleep ∧
      (morningPipeline now (.ok hs) (.ok rows) (.cmdError e) (.ok calW) (.ok meds) (.ok hevy)).Vitals =
        (morningPipeline now (.ok hs) (.ok rows) (.ok calP) (.ok calW) (.ok meds) (.ok hevy)).Vitals ∧
      (morningPipeline now (.ok hs) (.ok rows) (.cmdError e) (.ok calW) (.ok meds) (.ok hevy)).Meds =
        (morningPipeline now (.ok hs) (.ok rows) (.ok calP) (.ok calW) (.ok meds) (.ok hevy)).Meds ∧
      (morningPipeline now (.ok hs) (.ok rows) (.cmdError e) (.ok calW) (.ok meds) (.ok hevy)).Training =
        (morningPipeline now (.ok hs) (.ok rows) (.ok calP) (.ok calW) (.ok meds) (.ok hevy)).Training ∧
      (morningPipeline now (.ok hs) (.ok rows) (.cmdError e) (.ok calW) (.ok meds) (.ok hevy)).Errors =
        ["calendar error (personal): " ++ e] ∧
      ((morningPipeline now (.ok hs) (.ok rows) (.cmdError e) (.ok calW) (.ok meds) (.ok hevy)).Errors.countP
        (fun s => goContains s "calendar")) = 1) ∧
    ((morningPipeline now (.ok hs) (.ok rows) (.parseError e) (.ok calW) (.ok meds) (.ok hevy)).Sleep =
        (morningPipeline now (.ok hs) (.ok rows) (.ok calP) (.ok calW) (.ok meds) (.ok hevy)).Sleep ∧
      (morningPipeline now (.ok hs) (.ok rows) (.parseError e) (.ok calW) (.ok meds) (.ok hevy)).Meds =
        (morningPipeline now (.ok hs) (.ok rows) (.ok calP) (.ok calW) (.ok meds) (.ok hevy)).Meds ∧
      (morningPipeline now (.ok hs) (.ok rows) (.parseError e) (.ok calW) (.ok meds) (.ok hevy)).Training =
        (morningPipeline now (.ok hs) (.ok rows) (.ok calP) (.ok calW) (.ok meds) (.ok hevy)).Training ∧
      (morningPipeline now (.ok hs) (.ok rows) (.parseError e) (.ok calW) (.ok meds) (.ok hevy)).Errors =
        ["calendar JSON parse error (personal): " ++ e] ∧
      ((morningPipeline now (.ok hs) (.ok rows) (.parseError e) (.ok calW) (.ok meds) (.ok hevy)).Errors.countP
        (fun s => goContains s "calendar")) = 1) ∧
    ((morningPipeline now (.ok hs) (.ok rows) (.ok calP) (.cmdError e) (.ok meds) (.ok hevy)).Sleep =
        (morningPipeline now (.ok hs) (.ok rows) (.ok calP) (.ok calW) (.ok meds) (.ok hevy)).Sleep ∧
      (morningPipeline now (.ok hs) (.ok rows) (.ok calP) (.cmdError e) (.ok meds) (.ok hevy)).Vitals =
        (morningPipeline now (.ok hs) (.ok rows) (.ok calP) (.ok calW) (.ok meds) (.ok hevy)).Vitals ∧
      (morningPipeline now (.ok hs) (.ok rows) (.ok calP) (.cmdError e) (.ok meds) (.ok hevy)).Meds =
        (morningPipeline now (.ok hs) (.ok rows) (.ok calP) (.ok calW) (.ok meds) (.ok hevy)).Meds ∧
      (morningPipeline now (.ok hs) (.ok rows) (.ok calP) (.cmdError e) (.ok meds) (.ok hevy)).Training =
        (morningPipeline now (.ok hs) (.ok rows) (.ok calP) (.ok calW) (.ok meds) (.ok hevy)).Training ∧
      (morningPipeline now (.ok hs) (.ok rows) (.ok calP) (.cmdError e) (.ok meds) (.ok hevy)).Errors =
        ["calendar error (work): " ++ e]) ∧
    ((morningPipeline now (.ok hs) (.ok rows) (.ok calP) (.ok calW) (.cmdError e) (.ok hevy)).Sleep =
        (morningPipeline now (.ok hs) (.ok rows) (.ok calP) (.ok calW) (.ok meds) (.ok hevy)).Sleep ∧
      (morningPipeline now (.ok hs) (.ok rows) (.ok calP) (.ok calW) (.cmdError e) (.ok hevy)).Vitals =
        (morningPipeline now (.ok hs) (.ok rows) (.ok calP) (.ok calW) (.ok meds) (.ok hevy)).Vitals ∧
      (morningPipeline now (.ok hs) (.ok rows) (.ok calP) (.ok calW) (.cmdError e) (.ok hevy)).Calendar =
        (morningPipeline now (.ok hs) (.ok rows) (.ok calP) (.ok calW) (.ok meds) (.ok hevy)).Calendar ∧
      (morningPipeline now (.ok hs) (.ok rows) (.ok calP) (.ok calW) (.cmdError e) (.ok hevy)).Training =
        (morningPipeline now (.ok hs) (.ok rows) (.ok calP) (.ok calW) (.ok meds) (.ok hevy)).Training ∧
      (morningPipeline now (.ok hs) (.ok rows) (.ok calP) (.ok calW) (.cmdError e) (.ok hevy)).Errors =
        ["todoist error: " ++ e]) ∧
    ((morningPipeline now (.ok hs) (.ok rows) (.ok calP) (.ok calW) (.ok meds) (.cmdError e)).Sleep =
        (morningPipeline now (.ok hs) (.ok rows) (.ok calP) (.ok calW) (.ok meds) (.ok hevy)).Sleep ∧
      (morningPipeline now (.ok hs) (.ok rows) (.ok calP) (.ok calW) (.ok meds) (.cmdError e)).Vitals =
        (morningPipeline now (.ok hs) (.ok rows) (.ok calP) (.ok calW) (.ok meds) (.ok hevy)).Vitals ∧
      (morningPipeline now (.ok hs) (.ok rows) (.ok calP) (.ok calW) (.ok meds) (.cmdError e)).Calendar =
        (morningPipeline now (.ok hs) (.ok rows) (.ok calP) (.ok calW) (.ok meds) (.ok hevy)).Calendar ∧
      (morningPipeline now (.ok hs) (.ok rows) (.ok calP) (.ok calW) (.ok meds) (.cmdError e)).Meds =
        (morningPipeline now (.ok hs) (.ok rows) (.ok calP) (.ok calW) (.ok meds) (.ok hevy)).Meds ∧
      (morningPipeline now (.ok hs) (.ok rows) (.ok calP) (.ok calW) (.ok meds) (.cmdError e)).Errors =
        ["hevy error: " ++ e]) ∧
    (morningPipeline now (.ok hs) (.ok rows) (.ok calP) (.ok calW) (.ok meds) (.ok hevy)).Errors = [] := by
  have hcontains : goContains ("calendar error (personal): " ++ e) "calendar" = true := by
    rw [show ("calendar error (personal): " ++ e) =
      "calendar" ++ (" error (personal): " ++ e) from rfl]
    exact goContains_self_append _ _
  have hcontains2 : goContains ("calendar JSON parse error (personal): " ++ e) "calendar" = true := by
    rw [show ("calendar JSON parse error (personal): " ++ e) =
      "calendar" ++ (" JSON parse error (personal): " ++ e) from rfl]
    exact goContains_self_append _ _
  refine ⟨⟨?_, ?_, ?_, ?_⟩, ⟨?_, ?_, ?_, ?_, ?_, ?_⟩, ⟨?_, ?_, ?_, ?_, ?_, ?_⟩,
    ⟨?_, ?_, ?_, ?_, ?_⟩, ⟨?_, ?_, ?_, ?_, ?_⟩, ⟨?_, ?_, ?_, ?_, ?_⟩,
    ⟨?_, ?_, ?_, ?_, ?_⟩, ?_⟩
  · rw [pipeline_Calendar, pipeline_Calendar]
  · rw [pipeline_Meds, pipeline_Meds]
  · rw [pipeline_Training, pipeline_Training]
  · rw [pipeline_Errors]
    simp [fetchWarnings, dbWarnings]
  · rw [(pipeline_SleepVitals _ _ _ _ _ _ _).1]
    rfl
  · rw [(pipeline_SleepVitals _ _ _ _ _ _ _).2]
    rfl
  · rw [pipeline_Calendar, pipeline_Calendar]
  · rw [pipeline_Meds, pipeline_Meds]
  · rw [pipeline_Training, pipeline_Training]
  · rw [pipeline_Errors]
    simp [fetchWarnings, dbWarnings]
  · rw [(pipeline_SleepVitals _ _ _ _ _ _ _).1, (pipeline_SleepVitals _ _ _ _ _ _ _).1]
  · rw [(pipeline_SleepVitals _ _ _ _ _ _ _).2, (pipeline_SleepVitals _ _ _ _ _ _ _).2]
  · rw [pipeline_Meds, pipeline_Meds]
  · rw [pipeline_Training, pipeline_Training]
  · rw [pipeline_Errors]
    simp [fetchWarnings, dbWarnings]
  · rw [pipeline_Errors]
    simp [fetchWarnings, dbWarnings, List.countP_cons, hcontains]
  · rw [(pipeline_SleepVitals _ _ _ _ _ _ _).1, (pipeline_SleepVitals _ _ _ _ _ _ _).1]
  · rw [pipeline_Meds, pipeline_Meds]
  · rw [pipeline_Training, pipeline_Training]
  · rw [pipeline_Errors]
    simp [fetchWarnings, dbWarnings]
  · rw [pipeline_Errors]
    simp [fetchWarnings, dbWarnings, List.countP_cons, hcontains2]
  · rw [(pipeline_SleepVitals _ _ _ _ _ _ _).1, (pipeline_SleepVitals _ _ _ _ _ _ _).1]
  · rw [(pipeline_SleepVitals _ _ _ _ _ _ _).2, (pipeline_SleepVitals _ _ _ _ _ _ _).2]
  · rw [pipeline_Meds, pipeline_Meds]
  · rw [pipeline_Training, pipeline_Training]
  · rw [pipeline_Errors]
    simp [fetchWarnings, dbWarnings]
  · rw [(pipeline_SleepVitals _ _ _ _ _ _ _).1, (pipeline_SleepVitals _ _ _ _ _ _ _).1]
  · rw [(pipeline_SleepVitals _ _ _ _ _ _ _).2, (pipeline_SleepVitals _ _ _ _ _ _ _).2]
  · rw [pipeline_Calendar, pipeline_Calendar]
  · rw [pipeline_Training, pipeline_Training]
  · rw [pipeline_Errors]
    simp [fetchWarnings, dbWarnings]
  · rw [(pipeline_SleepVitals _ _ _ _ _ _ _).1, (pipeline_SleepVitals _ _ _ _ _ _ _).1]
  · rw [(pipeline_SleepVitals _ _ _ _ _ _ _).2, (pipeline_SleepVitals _ _ _ _ _ _ _).2]
  · rw [pipeline_Calendar, pipeline_Calendar]
  · rw [pipeline_Meds, pipeline_Meds]
  · rw [pipeline_Errors]
    simp [fetchWarnings, dbWarnings]
  · rw [pipeline_Errors]
    simp [fetchWarnings, dbWarnings]

/-- Energy values the evening health stage computes on success (shared
helper): consumed and active kcal are the day totals, and the balance is
`CalculateEnergyBalance` of them over the briefing's BMR. -/
theorem eveningEnergy_values (b : EveningBriefing) (today yesterdayDate : String)
    (rows : List MetricRow) :
    (getEveningHealthData b today yesterdayDate (.ok rows)).Energy.ConsumedKcal =
      queryDayTotal rows "dietary_energy" today ∧
    (getEveningHealthData b today yesterdayDate (.ok rows)).Energy.ActiveKcal =
      queryDayTotal rows "active_energy" today ∧
    (getEveningHealthData b today yesterdayDate (.ok rows)).Energy.DeficitOrSurplusKcal =
      (CalculateEnergyBalance b.Energy.BMRKcal (queryDayTotal rows "active_energy" today)
        (queryDayTotal rows "dietary_energy" today)).1 ∧
    (getEveningHealthData b today yesterdayDate (.ok rows)).Energy.Status =
      (CalculateEnergyBalance b.Energy.BMRKcal (queryDayTotal rows "active_energy" today)
        (queryDayTotal rows "dietary_energy" today)).2 := by
  simp only [getEveningHealthData]
  repeat' split
  all_goals simp

/-- C8 counterexample: a morning report with `dataAvailable` and
`isCurrentDay` both true but no total-hours value gets sleep quality
`""` (the Go zero value), not "UNKNOWN"; and the evening day-total query
returns 0 for a date with no matching rows, the value that then enters
the energy balance. -/
theorem missingField_counterexample :
    (classify (testBriefing ⟨none, none, none, none, "", true, true⟩
        ⟨none, none, none, none⟩ 0)).Classif.SleepQuality = "" ∧
    (classify (testBriefing ⟨none, none, none, none, "", true, true⟩
        ⟨none, none, none, none⟩ 0)).Classif.SleepQuality ≠ "UNKNOWN" ∧
    queryDayTotal [] "dietary_energy" "2026-03-14" = 0 := by
  refine ⟨rfl, ?_, by simp [queryDayTotal]⟩
  intro h
  rw [show (classify (testBriefing ⟨none, none, none, none, "", true, true⟩
      ⟨none, none, none, none⟩ 0)).Classif.SleepQuality = "" from rfl] at h
  exact absurd h (by decide)

/-- C8 amended: absence propagates as UNKNOWN exactly where the
classification has an UNKNOWN branch — unavailable or stale sleep data,
and absent HRV. When the availability flags are set but total hours are
absent, `classify` leaves the sleep quality as the empty string rather
than "UNKNOWN"; and the evening day-total query coalesces a metric with
no matching rows to 0, so a date with no dietary-energy rows enters the
energy balance as 0 kcal consumed. -/
theorem missingField_amended (b : MorningBriefing) (now : GoTime)
    (today yesterdayDate : String) (rows : List MetricRow) :
    ((b.Sleep.DataAvailable = false ∨ b.Sleep.IsCurrentDay = false) →
      (classify b).Classif.SleepQuality = "UNKNOWN") ∧
    (b.Vitals.HRV = none → (classify b).Classif.RecoveryStatus = "UNKNOWN") ∧
    (b.Sleep.DataAvailable = true → b.Sleep.IsCurrentDay = true →
      b.Sleep.TotalHours = none → (classify b).Classif.SleepQuality = "") ∧
    (rows.filter (fun r => tsMatches r "dietary_energy" today) = [] →
      queryDayTotal rows "dietary_energy" today = 0) ∧
    (rows.filter (fun r => tsMatches r "dietary_energy" today) = [] →
      (getEveningHealthData (initialEveningBriefing now) today yesterdayDate
        (.ok rows)).Energy.ConsumedKcal = 0 ∧
      (getEveningHealthData (initialEveningBriefing now) today yesterdayDate
        (.ok rows)).Energy.DeficitOrSurplusKcal =
        (CalculateEnergyBalance UserBMRKcal
          (queryDayTotal rows "active_energy" today) 0).1) := by
  have hsq : (classify b).Classif.SleepQuality = sleepQualityOf b.Sleep := rfl
  have hzero : rows.filter (fun r => tsMatches r "dietary_energy" today) = [] →
      queryDayTotal rows "dietary_energy" today = 0 := by
    intro hf
    unfold queryDayTotal
    rw [hf]
    simp
  refine ⟨?_, ?_, ?_, hzero, ?_⟩
  · rintro (h | h) <;> rw [hsq] <;> simp [sleepQualityOf, h]
  · intro h
    rw [show (classify b).Classif.RecoveryStatus = recoveryStatusOf b.Vitals.HRV from rfl,
      h]
    rfl
  · intro h1 h2 h3
    rw [hsq]
    simp [sleepQualityOf, h1, h2, h3]
  · intro hf
    have hev := eveningEnergy_values (initialEveningBriefing now) today yesterdayDate rows
    refine ⟨?_, ?_⟩
    · rw [hev.1, hzero hf]
    · rw [hev.2.2.1, hzero hf]
      rfl

/-- Witness for the C8 amended theorem: flags set with no total hours
gives the empty sleep quality; an empty metrics table gives 0 kcal
consumed and a pure-BMR deficit. -/
theorem missingField_amended_witness :
    ((testBriefing ⟨none, none, none, none, "", true, true⟩
        ⟨none, none, none, none⟩ 0).Sleep.DataAvailable = true ∧
      (classify (testBriefing ⟨none, none, none, none, "", true, true⟩
        ⟨none, none, none, none⟩ 0)).Classif.SleepQuality = "") ∧
    queryDayTotal [] "dietary_energy" "2026-03-14" = 0 ∧
    (getEveningHealthData (initialEveningBriefing ⟨2026, 3, 14, 21, 0, 0, 0⟩)
      "2026-03-14" "2026-03-13" (.ok [])).Energy.ConsumedKcal = 0 := by
  refine ⟨⟨rfl, ?_⟩, ?_, ?_⟩
  · exact (missingField_amended (testBriefing ⟨none, none, none, none, "", true, true⟩
      ⟨none, none, none, none⟩ 0) ⟨2026, 3, 14, 21, 0, 0, 0⟩ "2026-03-14" "2026-03-13"
      []).2.2.1 rfl rfl rfl
  · exact (missingField_amended (testBriefing ⟨none, none, none, none, "", true, true⟩
      ⟨none, none, none, none⟩ 0) ⟨2026, 3, 14, 21, 0, 0, 0⟩ "2026-03-14" "2026-03-13"
      []).2.2.2.1 rfl
  · exact ((missingField_amended (testBriefing ⟨none, none, none, none, "", true, true⟩
      ⟨none, none, none, none⟩ 0) ⟨2026, 3, 14, 21, 0, 0, 0⟩ "2026-03-14" "2026-03-13"
      []).2.2.2.2 rfl).1
